import Mathlib

set_option maxHeartbeats 1000000
set_option maxRecDepth 4000

/-!
Verification of the catalog-ingestion core of `src/build/fake_hdf5.py`
(phat_pypipeline).  The Python source is shallowly embedded: DataFrames
become ordered association lists of named columns, the mutable
configuration object becomes explicit state passing, floating-point
measurement values become exact rationals (only order comparisons and one
squaring occur, so no rounding behaviour is relevant to any claim), and
numpy NaN becomes an explicit `na` cell value.  Fallible Python code
(uncaught exceptions) is embedded with `Except`; caught per-filter
exceptions inside `cull_fakestars` are embedded with `Option`.
-/

namespace PhatFake

/-! ## String utilities

Python string primitives used by the source (`in`, `split`, `lower`,
`replace`), re-implemented over `List Char` so that they are kernel
computable and amenable to proof. -/

/-- Lowercase a string character-wise (model of Python `str.lower()` for
the ASCII identifiers appearing in this pipeline). -/
def lowerStr (s : String) : String :=
  String.mk (s.data.map Char.toLower)

/-- Split a character list at every occurrence of the character `c`,
keeping empty fragments, as Python `str.split(c)` does. -/
def splitCharList (c : Char) : List Char → List (List Char)
  | [] => [[]]
  | x :: xs =>
    if x = c then [] :: splitCharList c xs
    else
      match splitCharList c xs with
      | [] => [[x]]
      | h :: t => (x :: h) :: t

/-- Model of Python `s.split('_')` (used on lowered filter identifiers). -/
def splitUnderscore (s : String) : List String :=
  (splitCharList '_' s.data).map String.mk

/-- Substring test over character lists: does `needle` occur inside the
second list?  Model of Python `needle in hay`. -/
def containsList (needle : List Char) : List Char → Bool
  | [] => needle.isEmpty
  | x :: xs => needle.isPrefixOf (x :: xs) || containsList needle xs

/-- Model of Python `needle in hay` on strings. -/
def containsSub (hay needle : String) : Bool :=
  containsList needle.data hay.data

/-- Worker for splitting on a multi-character separator, leftmost-first
and non-overlapping, keeping empty fragments (Python `str.split(sep)`).
Structural recursion on a fuel argument: every step consumes at least
one character, so fuel equal to the input length (as supplied by
`splitSep`) can never run out before the input does. -/
def splitSepAux (sep : List Char) : Nat → List Char → List Char → List (List Char)
  | _, [], acc => [acc.reverse]
  | 0, _ :: _, acc => [acc.reverse]
  | fuel + 1, x :: xs, acc =>
    if sep.isPrefixOf (x :: xs) then
      acc.reverse :: splitSepAux sep fuel (List.drop (sep.length - 1) xs) []
    else
      splitSepAux sep fuel xs (x :: acc)

/-- Split a character list on a separator list. -/
def splitSep (sep l : List Char) : List (List Char) :=
  splitSepAux sep l.length l []

/-- Interleave a separator between list fragments (Python `sep.join`). -/
def interList (sep : List Char) : List (List Char) → List Char
  | [] => []
  | [x] => x
  | x :: y :: t => x ++ sep ++ interList sep (y :: t)

/-- Model of Python `s.replace(old, new)`: replace every non-overlapping
occurrence, scanning left to right. -/
def strReplace (s old new : String) : String :=
  String.mk (interList new.data (splitSep old.data s.data))

/-- Model of Python `','.join(l)` style joining. -/
def joinWith (sep : String) (l : List String) : String :=
  String.mk (interList sep.data (l.map String.data))

end PhatFake

namespace PhatFake

/-! ## Data model

`CellVal` is one table cell: a rational measurement, a boolean flag, or
the missing marker `na` (numpy NaN).  `Df` is a pandas DataFrame: a row
count together with named columns in display order.  `Config` models the
wpipe configuration object with its mutable `parameters` mapping. -/

/-- One cell of the catalog table. -/
inductive CellVal where
  | num (q : ℚ)
  | bool (b : Bool)
  | na
deriving DecidableEq

/-- An in-memory table: number of rows plus named columns in order. -/
structure Df where
  nrows : Nat
  cols : List (String × List CellVal)
deriving DecidableEq

instance {ε α : Type} [DecidableEq ε] [DecidableEq α] : DecidableEq (Except ε α) := fun a b =>
  match a, b with
  | .error x, .error y =>
    if h : x = y then .isTrue (by rw [h]) else .isFalse (by simp [h])
  | .ok x, .ok y =>
    if h : x = y then .isTrue (by rw [h]) else .isFalse (by simp [h])
  | .error _, .ok _ => .isFalse (by simp)
  | .ok _, .error _ => .isFalse (by simp)

/-- First value stored under a key in an ordered keyed list. -/
def alistFind {α : Type} (l : List (String × α)) (k : String) : Option α :=
  (l.find? (fun p => p.1 == k)).map (·.2)

/-- Key presence in an ordered keyed list. -/
def alistHas {α : Type} (l : List (String × α)) (k : String) : Bool :=
  l.any (fun p => p.1 == k)

/-- Keyed update: overwrite in place if the key exists, else append on
the right (pandas / dict assignment semantics). -/
def alistSet {α : Type} (l : List (String × α)) (k : String) (v : α) :
    List (String × α) :=
  if l.any (fun p => p.1 == k) then
    l.map (fun p => if p.1 == k then (k, v) else p)
  else
    l ++ [(k, v)]

/-- First column with the given name (`df.loc[:, name]`, `None` = KeyError). -/
def lookupCol (df : Df) (name : String) : Option (List CellVal) :=
  alistFind df.cols name

/-- Does a column with this name exist? -/
def hasCol (df : Df) (name : String) : Bool :=
  alistHas df.cols name

/-- `df.loc[:, name] = col`: overwrite the column in place if it exists,
otherwise append it on the right (pandas assignment semantics). -/
def setCol (df : Df) (name : String) (col : List CellVal) : Df :=
  { df with cols := alistSet df.cols name col }

/-- A value in the configuration's parameter store. -/
inductive ParamVal where
  | num (q : ℚ)
  | str (s : String)
deriving DecidableEq

/-- The wpipe configuration object: a mutable keyed parameter store. -/
structure Config where
  parameters : List (String × ParamVal)
deriving DecidableEq

/-- `my_config.parameters[k]` as an `Option` (`None` = KeyError). -/
def lookupParam (cfg : Config) (k : String) : Option ParamVal :=
  alistFind cfg.parameters k

/-- `my_config.parameters[k] = v`. -/
def setParam (cfg : Config) (k : String) (v : ParamVal) : Config :=
  { parameters := alistSet cfg.parameters k v }

/-- Key presence in the parameter store. -/
def hasParam (cfg : Config) (k : String) : Bool :=
  alistHas cfg.parameters k

/-- The `try: read except: insert default` pattern of `cull_fakestars`
(fake_hdf5.py lines 108-152): insert only when the key is absent. -/
def ensureParam (cfg : Config) (k : String) (v : ParamVal) : Config :=
  if hasParam cfg k then cfg else setParam cfg k v

/-! ## Quality Classifier: `cull_fakestars` (fake_hdf5.py lines 68-172)

For each entry of `filter_detectors` the source splits the lowered token
on `_` into detector and filter (an uncaught `ValueError` unless exactly
two parts result), rewrites the detector class, fills absent
`<class>_sharp` / `<class>_crowd` parameters with documented defaults,
and inside a `try` computes
`snr > snrcut`, `sharp**2 < class_sharp`, `crowd < class_crowd`,
writing `<filt.lower()>_st = snr_ok & sharp_ok` and
`<filt.lower()>_gst = st & crowd_ok`.  Any exception in the `try`
(missing column, non-numeric threshold) sets both flag columns of that
filter to NaN and processing continues with the next filter. -/

/-- Exact squaring on `ℚ` through `mkRat`, kept kernel-reducible;
`ratSq_spec` below proves it equal to multiplication. -/
def ratSq (x : ℚ) : ℚ := mkRat (x.num * x.num) (x.den * x.den)

/-- Pandas semantics of `cell > q`: NaN compares false, booleans are
coerced to 0/1. -/
def cellGT (c : CellVal) (q : ℚ) : Bool :=
  match c with
  | .num x => decide (q < x)
  | .bool b => decide (q < (if b then (1 : ℚ) else 0))
  | .na => false

/-- Pandas semantics of `cell**2 < q` (line 159). -/
def cellSqLT (c : CellVal) (q : ℚ) : Bool :=
  match c with
  | .num x => decide (ratSq x < q)
  | .bool b => decide ((if b then (1 : ℚ) else 0) < q)
  | .na => false

/-- Pandas semantics of `cell < q` (line 160). -/
def cellLT (c : CellVal) (q : ℚ) : Bool :=
  match c with
  | .num x => decide (x < q)
  | .bool b => decide ((if b then (1 : ℚ) else 0) < q)
  | .na => false

/-- A parameter value used as a number; a string raises a TypeError
inside the `try` block, i.e. yields `none`. -/
def paramAsNum : ParamVal → Option ℚ
  | .num q => some q
  | .str _ => none

/-- Lines 106-152: the sequential detector-class rewrites together with
the default filling of `<class>_sharp` / `<class>_crowd`.  `d0`/`fpart`
are the two parts of `filt.lower().split('_')`. -/
def detConfig (cfg : Config) (d0 fpart : String) : String × Config :=
  if d0 == "wfc3" && containsSub fpart "f1" then
    ("ir", ensureParam (ensureParam cfg "ir_sharp" (ParamVal.num (mkRat 15 100)))
      "ir_crowd" (ParamVal.num (mkRat 225 100)))
  else if d0 == "wfc3" then
    ("uvis", ensureParam (ensureParam cfg "uvis_sharp" (ParamVal.num (mkRat 15 100)))
      "uvis_crowd" (ParamVal.num (mkRat 13 10)))
  else if d0 == "acs" then
    ("wfc", ensureParam (ensureParam cfg "wfc_sharp" (ParamVal.num (mkRat 2 10)))
      "wfc_crowd" (ParamVal.num (mkRat 225 100)))
  else if d0 == "nircam" then
    ("nircam", ensureParam (ensureParam cfg "nircam_sharp" (ParamVal.num (mkRat 1 100)))
      "nircam_crowd" (ParamVal.num (mkRat 5 10)))
  else (d0, cfg)

/-- The `try` block of lines 153-163, as a function of the values the
block reads: the three measurement columns of the filter, the two class
thresholds, and `snrcut`.  `none` is the caught exception (missing
column / non-numeric threshold); `some (st, gst)` are the boolean flag
columns. -/
def tryFlags (sv : ParamVal) (snrL sharpL crowdL : Option (List CellVal))
    (spL cpL : Option ParamVal) : Option (List Bool × List Bool) :=
  match snrL, paramAsNum sv, sharpL, spL.bind paramAsNum, crowdL, cpL.bind paramAsNum with
  | some snrCol, some sq, some sharpCol, some sp, some crowdCol, some cp =>
    let snrC := snrCol.map (fun c => cellGT c sq)
    let sharpC := sharpCol.map (fun c => cellSqLT c sp)
    let crowdC := crowdCol.map (fun c => cellLT c cp)
    let st := List.zipWith (fun a b => a && b) snrC sharpC
    let gst := List.zipWith (fun a b => a && b) st crowdC
    some (st, gst)
  | _, _, _, _, _, _ => none

/-- One iteration of the filter loop (lines 104-171), with the split
already known to succeed; used through `cullFilterStep` below.
`sv` is the `snrcut` value read once before the loop. -/
def stepP (sv : ParamVal) (st8 : Df × Config) (filt : String) : Df × Config :=
  match splitUnderscore (lowerStr filt) with
  | [d0, fpart] =>
    let dc := detConfig st8.2 d0 fpart
    let lowered := lowerStr filt
    match tryFlags sv (lookupCol st8.1 (lowered ++ "_snr"))
        (lookupCol st8.1 (lowered ++ "_sharp"))
        (lookupCol st8.1 (lowered ++ "_crowd"))
        (lookupParam dc.2 (dc.1 ++ "_sharp"))
        (lookupParam dc.2 (dc.1 ++ "_crowd")) with
    | some pr =>
      (setCol (setCol st8.1 (lowered ++ "_st") (pr.1.map CellVal.bool))
        (lowered ++ "_gst") (pr.2.map CellVal.bool), dc.2)
    | none =>
      (setCol (setCol st8.1 (lowered ++ "_st") (List.replicate st8.1.nrows CellVal.na))
        (lowered ++ "_gst") (List.replicate st8.1.nrows CellVal.na), dc.2)
  | _ => st8

/-- One iteration of the filter loop including the uncaught unpacking
error of line 105 (`d, f = filt.lower().split('_')` raises `ValueError`
unless the split yields exactly two parts). -/
def cullFilterStep (sv : ParamVal) (st8 : Df × Config) (filt : String) :
    Except String (Df × Config) :=
  if (splitUnderscore (lowerStr filt)).length = 2 then
    .ok (stepP sv st8 filt)
  else
    .error ("ValueError: cannot unpack " ++ filt)

/-- The `snrcut` value of lines 99-103: read from the configuration,
defaulting to 4.0 when absent, never written back. -/
def snrcutOf (cfg : Config) : ParamVal :=
  (lookupParam cfg "snrcut").getD (ParamVal.num (mkRat 4 1))

/-- `cull_fakestars(df, filter_detectors, my_config)`
(fake_hdf5.py lines 68-172). -/
def cull_fakestars (df : Df) (filter_detectors : List String) (cfg : Config) :
    Except String (Df × Config) :=
  List.foldlM (cullFilterStep (snrcutOf cfg)) (df, cfg) filter_detectors

/-- The pure fold that `cull_fakestars` performs when no filter raises
the uncaught unpacking error. -/
def cullP (df : Df) (filter_detectors : List String) (cfg : Config) : Df × Config :=
  List.foldl (stepP (snrcutOf cfg)) (df, cfg) filter_detectors

/-- The configuration evolution of one filter iteration in isolation:
lines 104-152 touch the parameter store only through the filter name,
never through the table. -/
def cfgStep (cfg : Config) (filt : String) : Config :=
  match splitUnderscore (lowerStr filt) with
  | [d0, fpart] => (detConfig cfg d0 fpart).2
  | _ => cfg

/-- The GST-refines-ST invariant for the flag-column pair of one lowered
filter token: every row flagged `true` in `<low>_gst` is flagged `true`
in `<low>_st`. -/
def gstImpliesSt (df : Df) (low : String) : Prop :=
  ∀ scol gcol (i : Nat), lookupCol df (low ++ "_st") = some scol →
    lookupCol df (low ++ "_gst") = some gcol →
    gcol[i]? = some (CellVal.bool true) → scol[i]? = some (CellVal.bool true)

/-- The five column names `cull_fakestars` associates with one lowered
filter token: the three measurement columns it reads and the two flag
columns it writes. -/
def xNames (low : String) : List String :=
  [low ++ "_snr", low ++ "_sharp", low ++ "_crowd", low ++ "_st", low ++ "_gst"]

/-- Two tables agree on every column lookup outside the five columns
belonging to the lowered filter token `low`. -/
def agreeOutside (low : String) (df1 df2 : Df) : Prop :=
  ∀ name, ¬ name ∈ xNames low → lookupCol df1 name = lookupCol df2 name

/-- Both flag columns of the lowered filter token `low` hold the
explicit undefined marker for all `n` rows (the `except` branch of
lines 168-170). -/
def flagsNa (low : String) (n : Nat) (df : Df) : Prop :=
  lookupCol df (low ++ "_st") = some (List.replicate n CellVal.na) ∧
  lookupCol df (low ++ "_gst") = some (List.replicate n CellVal.na)

/-- At least one of the three measurement columns the `try` block reads
for the lowered filter token `low` is absent from the table, so the
lookup raises and the per-filter computation fails. -/
def xMissing (low : String) (df : Df) : Prop :=
  lookupCol df (low ++ "_snr") = none ∨ lookupCol df (low ++ "_sharp") = none ∨
  lookupCol df (low ++ "_crowd") = none

/-! ## Schema Resolver: `name_columns` (fake_hdf5.py lines 242-300)

Inputs are the parsed contents of the two description files: `descs` is
the ordered list of free-text column descriptions (the `desc` column of
the DataFrame built from the `.columns` file; row index = raw column
index) and `imnames` is the ordered list of manifest image names (the
`imnames` column of the DataFrame built from the `.info` file).

The body never gets past line 270.  Lines 262-268 build the two
DataFrames, initialise the `colnames` column and assign the four
input-position names (`df.loc[:3, 'colnames'] = fakepos_columns`, a
pandas length-mismatch `ValueError` when the label slice `:3` spans
fewer than four rows).  Line 270 then evaluates
`for image in imnames:` — but `imnames` is not defined anywhere in the
program: it occurs only as a column-label string on line 263, the
enclosing scopes define no such variable, and there is no star import.
Every call that reaches line 270 therefore raises
`NameError: name 'imnames' is not defined` and the function never
returns.  Lines 271-300 (including the reference to the equally
undefined `this_config` on line 274) are unreachable. -/

/-- Line 45: the four leading fakestar input-position columns
(a module-level constant of the source, read by line 268). -/
def fakepos_columns : List String := ["ext_in", "chip_in", "x_in", "y_in"]

/-- Lines 48-49: the eleven global photometry columns (a module-level
constant; its only reader, line 283, is unreachable). -/
def global_columns : List String :=
  ["ext", "chip", "x", "y", "chi_gl", "snr_gl", "sharp_gl",
   "round_gl", "majax_gl", "crowd_gl", "objtype_gl"]

/-- Lines 52-66: description fragment to column-name suffix, in the
insertion (= iteration) order of the Python dict (a module-level
constant; its only reader, line 286, is unreachable). -/
def colname_mappings : List (String × String) :=
  [("counts,", "count"),
   ("sky level,", "sky"),
   ("Normalized count rate,", "rate"),
   ("Normalized count rate uncertainty,", "raterr"),
   ("Instrumental VEGAMAG magnitude,", "vega"),
   ("Transformed UBVRI magnitude,", "trans"),
   ("Magnitude uncertainty,", "err"),
   ("Chi,", "chi"),
   ("Signal-to-noise,", "snr"),
   ("Sharpness,", "sharp"),
   ("Roundness,", "round"),
   ("Crowding,", "crowd"),
   ("Photometry quality flag,", "flag")]

/-- `name_columns(colfile, infofile, filts)` (fake_hdf5.py lines
242-300), over the parsed file contents.  Faithful to the source, the
function can never return a value: when the description list has at
least the four rows consumed by line 268's label-slice assignment,
execution reaches line 270 and raises `NameError` on the undefined
variable `imnames`; with fewer rows, line 268's length-mismatch
`ValueError` fires first.  The `imnames` argument (the data the loop
was evidently meant to iterate) is accepted for interface fidelity but
cannot influence the outcome. -/
def name_columns (descs imnames : List String) :
    Except String (List String × List String) :=
  if 4 ≤ descs.length then
    .error "NameError: name 'imnames' is not defined"
  else
    .error "ValueError: input position column assignment out of range"

/-! ## Coordinate Attacher: `add_wcs` (fake_hdf5.py lines 302-332)

`drzfiles` is the list of available astrometric reference images and
`wcsF` the external WCS pixel-to-sky solution of the selected reference
(`WCS(drzfile).all_pix2world`, a pure function per §1/§4.4 of the spec).
With zero references the source prints a skip message and returns the
table unchanged; with more than one it prints the list and likewise
returns the table unchanged (lines 322-325 — only the final `else`, the
exactly-one case, computes and inserts coordinates). -/

/-- `df.insert(loc, name, col)`: error if the column exists or the
position exceeds the width, else splice the column in at `loc`. -/
def insertCol (df : Df) (loc : Nat) (name : String) (col : List CellVal) :
    Except String Df :=
  if hasCol df name then .error ("ValueError: cannot insert " ++ name ++ ", already exists")
  else if loc ≤ df.cols.length then
    .ok { df with cols := df.cols.take loc ++ [(name, col)] ++ df.cols.drop loc }
  else .error "ValueError: insert loc out of bounds"

/-- Apply the WCS solution to one pixel pair; NaN pixels give NaN sky
coordinates. -/
def wcsCell (wcsF : ℚ → ℚ → ℚ × ℚ) (pick : ℚ × ℚ → ℚ) (cx cy : CellVal) : CellVal :=
  match cx, cy with
  | .num a, .num b => .num (pick (wcsF a b))
  | _, _ => .na

/-- `add_wcs(df, photfile, my_config)` (fake_hdf5.py lines 302-332). -/
def add_wcs (df : Df) (drzfiles : List String) (wcsF : ℚ → ℚ → ℚ × ℚ) :
    Except String Df :=
  match drzfiles with
  | [] => .ok df
  | [_] =>
    (match lookupCol df "x", lookupCol df "y" with
     | some xs, some ys =>
       let pairs := xs.zip ys
       let ra := pairs.map (fun p => wcsCell wcsF Prod.fst p.1 p.2)
       let dec := pairs.map (fun p => wcsCell wcsF Prod.snd p.1 p.2)
       match insertCol df 4 "ra" ra with
       | .error e => .error e
       | .ok df2 => insertCol df2 5 "dec" dec
     | _, _ => .error "AttributeError: no x/y columns")
  | _ :: _ :: _ => .ok df

/-! ## Catalog Writer: `read_fakestars` (fake_hdf5.py lines 335-401)

The input `df` is the catalog already read from the raw photometry file
with the resolved column names in order (line 370); `headerDf` is the
FITS-header table built by `make_header_table` (external image metadata,
line 377); `filters` comes from `name_columns`; `refImages`/`wcsF` feed
`add_wcs`.  The persisted HDF5 store is modelled as the ordered list of
`(section key, table)` pairs written: `fitsinfo` (mode `'w'`), then
`data` (the subset of columns whose names do not contain the literal
substring `"\ ("` — line 386 — after `cull_fakestars` and `add_wcs`),
then one section per filter holding the columns of the original table
whose names contain `_<filter>_` (line 399).  The function body has no
`return` statement, recorded by the `retval` field. -/

/-- Result of one `read_fakestars` run: the sections written in order,
the final store file name after the `os.rename` of line 396, and the
Python return value. -/
structure RFResult where
  sections : List (String × Df)
  outfileFull : String
  retval : Option Df
deriving DecidableEq

/-- `read_fakestars(my_config, fakefile, columns_df, filters)`
(fake_hdf5.py lines 335-401). -/
def read_fakestars (cfg : Config) (photfile : String) (df : Df) (headerDf : Df)
    (filters : List String) (refImages : List String) (wcsF : ℚ → ℚ → ℚ × ℚ) :
    Except String (RFResult × Config) :=
  let df0 : Df := ⟨df.nrows, df.cols.filter (fun p => !(containsSub p.1 "\\ ("))⟩
  match cull_fakestars df0 filters cfg with
  | .error e => .error e
  | .ok (df1, cfg1) =>
    let cfg2 := setParam cfg1 "det_filters" (.str (joinWith "," filters))
    match add_wcs df1 refImages wcsF with
    | .error e => .error e
    | .ok df2 =>
      .ok ({ sections := ("fitsinfo", headerDf) :: ("data", df2) ::
               filters.map (fun f =>
                 (f, ⟨df.nrows, df.cols.filter (fun p => containsSub p.1 ("_" ++ f ++ "_"))⟩)),
             outfileFull := strReplace (photfile ++ ".hdf5") ".hdf5" "_full.hdf5",
             retval := none }, cfg2)

/-! ## Concrete test inputs

Fixed catalogs, description files and configurations on which the
claimed scenarios are evaluated. -/

/-- Scenario A description rows: 4 input-position columns, 2 per-image
columns for the single manifest image, 11 global columns, and one
remaining column described `Signal-to-noise, filter 'F814W'` (the
free-text wording quoted by the claim). -/
def scA_descs : List String :=
  ["Input extension", "Input chip", "Input X position", "Input Y position",
   "Input counts for image 1", "Input magnitude for image 1",
   "Extension", "Chip", "Object X position", "Object Y position",
   "Chi of fit", "Object signal-to-noise", "Object sharpness", "Object roundness",
   "Object major axis", "Object crowding", "Object type",
   "Signal-to-noise, filter 'F814W'"]

/-- Scenario A manifest: the single image `img1.chip1`. -/
def scA_imnames : List String := ["img1.chip1"]

/-- The name sequence Scenario A claims `name_columns` returns. -/
def scA_claimed : List String :=
  ["ext_in", "chip_in", "x_in", "y_in", "img1.chip1_counts", "img1.chip1_mag",
   "ext", "chip", "x", "y", "chi_gl", "snr_gl", "sharp_gl", "round_gl",
   "majax_gl", "crowd_gl", "objtype_gl", "f814w_snr"]

/-- A second, schema-ill-formed description file (duplicate combined
descriptions, one unmatched column): had `name_columns` any
SchemaMismatch validation, this input would have to trigger it. -/
def c4_descs : List String :=
  scA_descs.take 17 ++
  ["Signal-to-noise, 'X'", "Signal-to-noise, 'X'", "Mystery column"]

/-- The catalog of Scenario B/C as the claim words it: combined columns
named `f814w_*`, one row with snr 5.0, sharpness 0.1, crowding 1.0. -/
def c5_df_claim : Df :=
  ⟨1, [("f814w_snr", [.num (mkRat 5 1)]),
       ("f814w_sharp", [.num (mkRat 1 10)]),
       ("f814w_crowd", [.num (mkRat 1 1)])]⟩

/-- The same measurements under the column names `cull_fakestars`
actually reads (`<filt.lower()>_*` for the list entry `WFC3_F814W`),
with a second row having snr 2.0 (Scenario C). -/
def c5_df_actual : Df :=
  ⟨2, [("wfc3_f814w_snr", [.num (mkRat 5 1), .num (mkRat 2 1)]),
       ("wfc3_f814w_sharp", [.num (mkRat 1 10), .num (mkRat 1 10)]),
       ("wfc3_f814w_crowd", [.num (mkRat 1 1), .num (mkRat 1 1)])]⟩

/-- A catalog holding individual per-image photometry columns next to a
combined column, fed to the Catalog Writer. -/
def c6_df : Df :=
  ⟨1, [("img1.chip1_counts", [.num (mkRat 1 1)]),
       ("img1.chip1_mag", [.num (mkRat 2 1)]),
       ("f814w_snr", [.num (mkRat 5 1)])]⟩

/-- A five-column catalog with pixel coordinate columns `x`, `y` for the
Coordinate Attacher. -/
def c7_df : Df :=
  ⟨1, [("a", [.num (mkRat 0 1)]), ("b", [.num (mkRat 0 1)]),
       ("x", [.num (mkRat 3 1)]), ("y", [.num (mkRat 4 1)]),
       ("z", [.num (mkRat 0 1)])]⟩

/-- A concrete WCS solution used by the writer/attacher scenarios. -/
def c7_wcs : ℚ → ℚ → ℚ × ℚ := fun a b => (b, a)

/-- Fault-isolation scenario, malformed run: the catalog carries the
measurement columns of `ACS_F606W` but none of `WFC3_F814W`. -/
def c2_df1 : Df :=
  ⟨1, [("acs_f606w_snr", [.num (mkRat 9 1)]),
       ("acs_f606w_sharp", [.num (mkRat 1 10)]),
       ("acs_f606w_crowd", [.num (mkRat 1 1)])]⟩

/-- The extra well-formed measurement columns of `WFC3_F814W`. -/
def c2_extra : List (String × List CellVal) :=
  [("wfc3_f814w_snr", [.num (mkRat 5 1)]),
   ("wfc3_f814w_sharp", [.num (mkRat 1 10)]),
   ("wfc3_f814w_crowd", [.num (mkRat 1 1)])]

/-- Fault-isolation scenario, well-formed run: the same catalog with
`WFC3_F814W`'s columns also present. -/
def c2_df2 : Df := ⟨1, c2_df1.cols ++ c2_extra⟩

/-- A configuration carrying an unrelated numeric parameter but no
`snrcut`, for the frame-effect scenario. -/
def c9_cfg : Config := ⟨[("other", ParamVal.num (mkRat 7 1))]⟩

/-- The table the Catalog Writer puts under the section key `data` on
the `c6_df` run: the whole catalog (per-image columns included, since no
name contains `"\ ("`) plus the flag columns. -/
def c6_data_df : Df :=
  ⟨1, [("img1.chip1_counts", [.num (mkRat 1 1)]),
       ("img1.chip1_mag", [.num (mkRat 2 1)]),
       ("f814w_snr", [.num (mkRat 5 1)]),
       ("wfc3_f814w_st", [.na]),
       ("wfc3_f814w_gst", [.na])]⟩

/-- The full writer result of the `c6_df` run. -/
def c6_expected_res : RFResult :=
  { sections := [("fitsinfo", ⟨0, []⟩), ("data", c6_data_df), ("WFC3_F814W", ⟨1, []⟩)],
    outfileFull := "t.phot.fake_full.hdf5",
    retval := none }

/-- The configuration state after the `c6_df` run. -/
def c6_expected_cfg : Config :=
  ⟨[("uvis_sharp", .num (mkRat 3 20)), ("uvis_crowd", .num (mkRat 13 10)),
    ("det_filters", .str "WFC3_F814W")]⟩

/-! ## Basic lemmas: strings -/

theorem ratSq_spec (x : ℚ) : ratSq x = x * x := by
  rw [Rat.mul_def]
  simp [ratSq, Rat.normalize_eq_mkRat]

theorem str_data_append (a b : String) : (a ++ b).data = a.data ++ b.data := by
  cases a
  cases b
  rfl

theorem listApp_singleton_ne {u v : List Char} {a b : Char} (hab : a ≠ b) :
    u ++ [a] ≠ v ++ [b] := by
  intro h
  have h1 : (u ++ [a]).getLast? = some a := List.getLast?_concat u
  rw [h, List.getLast?_concat v] at h1
  exact hab (Option.some.inj h1).symm

theorem strApp_ne_of_last {s t : String} {u v : List Char} {a b : Char}
    (hs : s.data = u ++ [a]) (ht : t.data = v ++ [b]) (hab : a ≠ b)
    (x y : String) : x ++ s ≠ y ++ t := by
  intro h
  have hd := congrArg String.data h
  rw [str_data_append, str_data_append, hs, ht,
    ← List.append_assoc, ← List.append_assoc] at hd
  exact listApp_singleton_ne hab hd

theorem strApp_ne_of_ne {x y : String} (s : String) (h : x ≠ y) :
    x ++ s ≠ y ++ s := by
  intro he
  apply h
  have hd := congrArg String.data he
  rw [str_data_append, str_data_append] at hd
  exact String.ext (List.append_cancel_right hd)

theorem strApp_st_ne_gst (x y : String) : x ++ "_st" ≠ y ++ "_gst" := by
  intro he
  have hd := congrArg String.data he
  rw [str_data_append, str_data_append] at hd
  have hd2 : (x.data ++ ['_']) ++ ['s', 't'] = (y.data ++ ['_', 'g']) ++ ['s', 't'] := by
    simpa [List.append_assoc] using hd
  have hd3 := List.append_cancel_right hd2
  have h4 : (x.data ++ ['_']).getLast? = some '_' := List.getLast?_concat _
  have h5 : (y.data ++ ['_', 'g']).getLast? = some 'g' := by
    rw [show y.data ++ ['_', 'g'] = (y.data ++ ['_']) ++ ['g'] by simp]
    exact List.getLast?_concat _
  rw [hd3, h5] at h4
  simp at h4

theorem strApp_gst_ne_st (x y : String) : x ++ "_gst" ≠ y ++ "_st" :=
  fun he => strApp_st_ne_gst y x he.symm

/-! ## Basic lemmas: keyed lists -/

theorem find?_eq_none_of_any_false {α : Type} (l : List (String × α)) (k : String)
    (h : l.any (fun p => p.1 == k) = false) :
    l.find? (fun p => p.1 == k) = none := by
  rw [List.find?_eq_none]
  intro x hx hpx
  have h2 : l.any (fun p => p.1 == k) = true := List.any_eq_true.mpr ⟨x, hx, hpx⟩
  rw [h] at h2
  exact Bool.noConfusion h2

theorem find?_map_replace_self {α : Type} (l : List (String × α)) (k : String) (v : α)
    (h : l.any (fun p => p.1 == k) = true) :
    (l.map (fun p => if p.1 == k then (k, v) else p)).find? (fun p => p.1 == k) =
      some (k, v) := by
  induction l with
  | nil => exact Bool.noConfusion h
  | cons p t ih =>
    simp only [List.any_cons, Bool.or_eq_true] at h
    simp only [List.map_cons]
    by_cases hp : p.1 = k
    · rw [if_pos (by simp [hp])]
      rw [List.find?_cons_of_pos _ (by simp)]
    · rw [if_neg (by simp [hp])]
      rw [List.find?_cons_of_neg _ (by simp [hp])]
      exact ih (h.resolve_left (by simp [hp]))

theorem find?_map_replace_other {α : Type} (l : List (String × α)) (k k' : String) (v : α)
    (h : k ≠ k') :
    (l.map (fun p => if p.1 == k then (k, v) else p)).find? (fun p => p.1 == k') =
      l.find? (fun p => p.1 == k') := by
  induction l with
  | nil => rfl
  | cons p t ih =>
    simp only [List.map_cons]
    by_cases hp : p.1 = k
    · rw [if_pos (by simp [hp])]
      rw [List.find?_cons_of_neg _ (by simp [h])]
      rw [List.find?_cons_of_neg _ (by simp [hp, h])]
      exact ih
    · rw [if_neg (by simp [hp])]
      by_cases hq : p.1 = k'
      · rw [List.find?_cons_of_pos _ (by simp [hq]), List.find?_cons_of_pos _ (by simp [hq])]
      · rw [List.find?_cons_of_neg _ (by simp [hq]), List.find?_cons_of_neg _ (by simp [hq])]
        exact ih

theorem alistFind_set_self {α : Type} (l : List (String × α)) (k : String) (v : α) :
    alistFind (alistSet l k v) k = some v := by
  unfold alistSet
  by_cases h : l.any (fun p => p.1 == k) = true
  · rw [if_pos h, alistFind, find?_map_replace_self l k v h]
    rfl
  · rw [if_neg h, alistFind, List.find?_append,
      find?_eq_none_of_any_false l k (Bool.eq_false_iff.mpr h)]
    rw [List.find?_cons_of_pos _ (by simp)]
    rfl

theorem alistFind_set_other {α : Type} (l : List (String × α)) (k k' : String) (v : α)
    (h : k' ≠ k) : alistFind (alistSet l k v) k' = alistFind l k' := by
  unfold alistSet
  by_cases hh : l.any (fun p => p.1 == k) = true
  · rw [if_pos hh, alistFind, find?_map_replace_other l k k' v (Ne.symm h)]
    rfl
  · rw [if_neg hh, alistFind, List.find?_append]
    have h2 : List.find? (fun p => p.1 == k') [(k, v)] = none := by
      rw [List.find?_cons_of_neg _ (by simp only [beq_iff_eq]; exact Ne.symm h)]
      rfl
    rw [h2]
    simp [alistFind]

theorem alistHas_iff_find {α : Type} (l : List (String × α)) (k : String) :
    alistHas l k = (alistFind l k).isSome := by
  induction l with
  | nil => rfl
  | cons p t ih =>
    simp only [alistHas, List.any_cons, alistFind] at *
    by_cases hp : p.1 = k
    · rw [List.find?_cons_of_pos _ (by simp [hp])]
      simp [hp]
    · rw [List.find?_cons_of_neg _ (by simp [hp])]
      simp only [Option.isSome_map] at *
      simp [hp, ih]

theorem alistHas_set_other {α : Type} (l : List (String × α)) (k k' : String) (v : α)
    (h : k' ≠ k) : alistHas (alistSet l k v) k' = alistHas l k' := by
  rw [alistHas_iff_find, alistHas_iff_find, alistFind_set_other l k k' v h]

theorem alistHas_set_mono {α : Type} (l : List (String × α)) (k k' : String) (v : α)
    (h : alistHas l k' = true) : alistHas (alistSet l k v) k' = true := by
  by_cases hk : k' = k
  · subst hk
    rw [alistHas_iff_find, alistFind_set_self]
    rfl
  · rwa [alistHas_set_other l k k' v hk]

theorem alistFind_append_right {α : Type} (l1 l2 : List (String × α)) (k : String)
    (h : alistHas l2 k = false) : alistFind (l1 ++ l2) k = alistFind l1 k := by
  simp only [alistFind, List.find?_append]
  rw [find?_eq_none_of_any_false l2 k h]
  simp

/-! ## Basic lemmas: tables and configurations -/

theorem lookupCol_setCol_self (df : Df) (name : String) (col : List CellVal) :
    lookupCol (setCol df name col) name = some col :=
  alistFind_set_self df.cols name col

theorem lookupCol_setCol_other (df : Df) (n m : String) (col : List CellVal)
    (h : m ≠ n) : lookupCol (setCol df n col) m = lookupCol df m :=
  alistFind_set_other df.cols n m col h

theorem nrows_setCol (df : Df) (n : String) (col : List CellVal) :
    (setCol df n col).nrows = df.nrows := rfl

theorem hasCol_setCol_mono (df : Df) (n m : String) (col : List CellVal)
    (h : hasCol df m = true) : hasCol (setCol df n col) m = true :=
  alistHas_set_mono df.cols n m col h

theorem hasParam_ensure_other (cfg : Config) (k k' : String) (v : ParamVal)
    (h : k' ≠ k) : hasParam (ensureParam cfg k v) k' = hasParam cfg k' := by
  unfold ensureParam
  by_cases hc : hasParam cfg k
  · rw [if_pos hc]
  · rw [if_neg hc]
    exact alistHas_set_other cfg.parameters k k' v h

/-! ## Structure of the classifier fold -/

theorem stepP_snd (sv : ParamVal) (df : Df) (cfg : Config) (f : String) :
    (stepP sv (df, cfg) f).2 = cfgStep cfg f := by
  unfold stepP cfgStep
  rcases hs : splitUnderscore (lowerStr f) with _ | ⟨d0, _ | ⟨fp, _ | _⟩⟩ <;> simp
  split <;> rfl

theorem stepP_pair (sv : ParamVal) (df : Df) (cfg : Config) (f : String) :
    stepP sv (df, cfg) f = ((stepP sv (df, cfg) f).1, cfgStep cfg f) := by
  rw [← stepP_snd sv df cfg f]

theorem stepP_nrows (sv : ParamVal) (st8 : Df × Config) (f : String) :
    (stepP sv st8 f).1.nrows = st8.1.nrows := by
  unfold stepP
  rcases hs : splitUnderscore (lowerStr f) with _ | ⟨d0, _ | ⟨fp, _ | _⟩⟩ <;> simp
  split <;> rfl

theorem foldl_stepP_snd (sv : ParamVal) (fs : List String) :
    ∀ (df : Df) (cfg : Config),
      (List.foldl (stepP sv) (df, cfg) fs).2 = List.foldl cfgStep cfg fs := by
  induction fs with
  | nil => intro df cfg; rfl
  | cons f rest ih =>
    intro df cfg
    rw [List.foldl_cons, List.foldl_cons, stepP_pair sv df cfg f]
    exact ih _ _

theorem foldl_stepP_nrows (sv : ParamVal) (fs : List String) :
    ∀ (st8 : Df × Config),
      (List.foldl (stepP sv) st8 fs).1.nrows = st8.1.nrows := by
  induction fs with
  | nil => intro st8; rfl
  | cons f rest ih =>
    intro st8
    rw [List.foldl_cons, ih (stepP sv st8 f), stepP_nrows]

theorem foldlM_cullStep_ok (sv : ParamVal) (fs : List String) :
    ∀ (init : Df × Config),
      (∀ f ∈ fs, (splitUnderscore (lowerStr f)).length = 2) →
      List.foldlM (cullFilterStep sv) init fs = .ok (List.foldl (stepP sv) init fs) := by
  induction fs with
  | nil => intro init _; rfl
  | cons f rest ih =>
    intro init h
    rw [List.foldlM_cons, List.foldl_cons]
    have hf : cullFilterStep sv init f = .ok (stepP sv init f) := by
      unfold cullFilterStep
      rw [if_pos (h f (by simp))]
    rw [hf]
    exact ih (stepP sv init f) (fun g hg => h g (by simp [hg]))

theorem foldlM_cullStep_ok_inv (sv : ParamVal) (fs : List String) :
    ∀ (init out : Df × Config),
      List.foldlM (cullFilterStep sv) init fs = .ok out →
      (∀ f ∈ fs, (splitUnderscore (lowerStr f)).length = 2) ∧
        out = List.foldl (stepP sv) init fs := by
  induction fs with
  | nil =>
    intro init out h
    refine ⟨by simp, ?_⟩
    rw [List.foldlM_nil] at h
    exact (Except.ok.inj h).symm
  | cons f rest ih =>
    intro init out h
    rw [List.foldlM_cons] at h
    by_cases hsp : (splitUnderscore (lowerStr f)).length = 2
    · have hf : cullFilterStep sv init f = .ok (stepP sv init f) := by
        unfold cullFilterStep
        rw [if_pos hsp]
      rw [hf] at h
      have h2 := ih (stepP sv init f) out h
      exact ⟨fun g hg => by
        rcases List.mem_cons.mp hg with hg | hg
        · rw [hg]; exact hsp
        · exact h2.1 g hg, by rw [List.foldl_cons]; exact h2.2⟩
    · exfalso
      have hf : cullFilterStep sv init f = .error ("ValueError: cannot unpack " ++ f) := by
        unfold cullFilterStep
        rw [if_neg hsp]
      rw [hf] at h
      exact Except.noConfusion h

theorem cull_ok_of_splits (df : Df) (fs : List String) (cfg : Config)
    (h : ∀ f ∈ fs, (splitUnderscore (lowerStr f)).length = 2) :
    cull_fakestars df fs cfg = .ok (cullP df fs cfg) :=
  foldlM_cullStep_ok (snrcutOf cfg) fs (df, cfg) h

theorem cull_ok_inv (df : Df) (fs : List String) (cfg : Config) (out : Df × Config)
    (h : cull_fakestars df fs cfg = .ok out) :
    (∀ f ∈ fs, (splitUnderscore (lowerStr f)).length = 2) ∧ out = cullP df fs cfg :=
  foldlM_cullStep_ok_inv (snrcutOf cfg) fs (df, cfg) out h

/-! ## The `snrcut` frame effect (claim C9) -/

theorem detConfig_hasParam_snrcut (cfg : Config) (d0 fp : String) :
    hasParam (detConfig cfg d0 fp).2 "snrcut" = hasParam cfg "snrcut" := by
  unfold detConfig
  split
  · rw [hasParam_ensure_other _ _ _ _ (by decide), hasParam_ensure_other _ _ _ _ (by decide)]
  split
  · rw [hasParam_ensure_other _ _ _ _ (by decide), hasParam_ensure_other _ _ _ _ (by decide)]
  split
  · rw [hasParam_ensure_other _ _ _ _ (by decide), hasParam_ensure_other _ _ _ _ (by decide)]
  split
  · rw [hasParam_ensure_other _ _ _ _ (by decide), hasParam_ensure_other _ _ _ _ (by decide)]
  · rfl

theorem cfgStep_hasParam_snrcut (cfg : Config) (f : String) :
    hasParam (cfgStep cfg f) "snrcut" = hasParam cfg "snrcut" := by
  unfold cfgStep
  rcases splitUnderscore (lowerStr f) with _ | ⟨d0, _ | ⟨fp, _ | ⟨x, r⟩⟩⟩
  · rfl
  · rfl
  · exact detConfig_hasParam_snrcut cfg d0 fp
  · rfl

theorem foldl_cfgStep_snrcut (fs : List String) :
    ∀ cfg : Config,
      hasParam (List.foldl cfgStep cfg fs) "snrcut" = hasParam cfg "snrcut" := by
  induction fs with
  | nil => intro cfg; rfl
  | cons f rest ih =>
    intro cfg
    rw [List.foldl_cons, ih (cfgStep cfg f), cfgStep_hasParam_snrcut]

/-- C9: `cull_fakestars` reads `snrcut` once (defaulting to 4.0 locally
when the key is absent, lines 99-103) but never inserts a `snrcut` entry
into the parameter store: after any successful classification the store
contains `snrcut` exactly when it did before.  (The keys it does insert
as a side effect are the `<class>_sharp` / `<class>_crowd` defaults; the
witness runs a filter that inserts `ir_sharp` while `snrcut` stays
absent.) -/
theorem c9_snrcut_never_inserted (df : Df) (fs : List String) (cfg : Config)
    (d : Df) (c : Config) (h : cull_fakestars df fs cfg = .ok (d, c)) :
    hasParam c "snrcut" = hasParam cfg "snrcut" := by
  obtain ⟨_, hout⟩ := cull_ok_inv df fs cfg (d, c) h
  have hc : c = (cullP df fs cfg).2 := congrArg Prod.snd hout
  rw [hc, cullP, foldl_stepP_snd, foldl_cfgStep_snrcut]

/-- Witness for C9: a concrete run with `snrcut` absent before and
after, while the same run does insert `ir_sharp` and `ir_crowd`. -/
theorem c9_snrcut_never_inserted_witness :
    hasParam (cullP c6_df ["WFC3_F110W"] c9_cfg).2 "snrcut" = hasParam c9_cfg "snrcut" ∧
    hasParam c9_cfg "snrcut" = false ∧
    hasParam (cullP c6_df ["WFC3_F110W"] c9_cfg).2 "ir_sharp" = true ∧
    hasParam (cullP c6_df ["WFC3_F110W"] c9_cfg).2 "ir_crowd" = true :=
  ⟨c9_snrcut_never_inserted c6_df ["WFC3_F110W"] c9_cfg
      (cullP c6_df ["WFC3_F110W"] c9_cfg).1 (cullP c6_df ["WFC3_F110W"] c9_cfg).2
      (by decide),
   by decide, by decide, by decide⟩

/-! ## GST refines ST (claim C1) -/

theorem strApp_ne_of_suffix_ne (x : String) {s t : String} (h : s ≠ t) :
    x ++ s ≠ x ++ t := by
  intro he
  apply h
  have hd := congrArg String.data he
  rw [str_data_append, str_data_append] at hd
  exact String.ext (List.append_cancel_left hd)

theorem zipWith_and_true {a b : List Bool} {i : Nat}
    (h : (List.zipWith (fun x y => x && y) a b)[i]? = some true) :
    a[i]? = some true := by
  induction a generalizing b i with
  | nil => simp at h
  | cons x xs ih =>
    cases b with
    | nil => simp at h
    | cons y ys =>
      cases i with
      | zero =>
        simp only [List.zipWith_cons_cons, List.getElem?_cons_zero, Option.some.injEq] at h ⊢
        cases x
        · simp at h
        · rfl
      | succ n =>
        simp only [List.zipWith_cons_cons, List.getElem?_cons_succ] at h ⊢
        exact ih h

theorem list_len2 {α : Type} {l : List α} (h : l.length = 2) : ∃ a b, l = [a, b] := by
  rcases l with _ | ⟨a, _ | ⟨b, _ | ⟨c, r⟩⟩⟩
  · simp at h
  · simp at h
  · exact ⟨a, b, rfl⟩
  · simp only [List.length_cons] at h
    omega

theorem tryFlags_some_shape {sv : ParamVal} {a b c : Option (List CellVal)}
    {sp cp : Option ParamVal} {pr : List Bool × List Bool}
    (h : tryFlags sv a b c sp cp = some pr) :
    ∃ crowdC, pr.2 = List.zipWith (fun x y => x && y) pr.1 crowdC := by
  unfold tryFlags at h
  split at h
  · obtain rfl := Option.some.inj h
    exact ⟨_, rfl⟩
  · exact Option.noConfusion h

theorem stepP_fresh_gstImpliesSt (sv : ParamVal) (st8 : Df × Config) (f : String)
    (d0 fp : String) (hs : splitUnderscore (lowerStr f) = [d0, fp]) :
    gstImpliesSt (stepP sv st8 f).1 (lowerStr f) := by
  unfold stepP
  rw [hs]
  simp only
  have hne : lowerStr f ++ "_st" ≠ lowerStr f ++ "_gst" :=
    strApp_ne_of_suffix_ne (lowerStr f) (by decide)
  split
  · rename_i pr hpr
    intro scol gcol i h1 h2 h3
    rw [lookupCol_setCol_self] at h2
    rw [lookupCol_setCol_other _ _ _ _ hne, lookupCol_setCol_self] at h1
    obtain rfl := Option.some.inj h1
    obtain rfl := Option.some.inj h2
    obtain ⟨crowdC, hshape⟩ := tryFlags_some_shape hpr
    rw [List.getElem?_map] at h3 ⊢
    rcases hg : pr.2[i]? with _ | gb
    · rw [hg] at h3
      exact Option.noConfusion h3
    · rw [hg] at h3
      have hgb : gb = true := by
        have := Option.some.inj h3
        cases gb
        · exact CellVal.noConfusion this (fun hb => hb)
        · rfl
      subst hgb
      rw [hshape] at hg
      have hst := zipWith_and_true (b := crowdC) (i := i) hg
      rw [hst]
      rfl
  · intro scol gcol i h1 h2 h3
    rw [lookupCol_setCol_self] at h2
    obtain rfl := Option.some.inj h2
    rw [List.getElem?_replicate] at h3
    by_cases hi : i < st8.1.nrows
    · rw [if_pos hi] at h3
      exact absurd (Option.some.inj h3) (by intro hv; exact CellVal.noConfusion hv)
    · rw [if_neg hi] at h3
      exact Option.noConfusion h3

theorem stepP_other_gstImpliesSt (sv : ParamVal) (st8 : Df × Config) (f : String)
    {low : String} (h : gstImpliesSt st8.1 low) (hne : lowerStr f ≠ low) :
    gstImpliesSt (stepP sv st8 f).1 low := by
  unfold stepP
  rcases hs : splitUnderscore (lowerStr f) with _ | ⟨d0, _ | ⟨fp, _ | ⟨x, r⟩⟩⟩ <;>
    try exact h
  simp only
  have hst_st : low ++ "_st" ≠ lowerStr f ++ "_st" :=
    strApp_ne_of_ne "_st" (fun e => hne e.symm)
  have hst_gst : low ++ "_st" ≠ lowerStr f ++ "_gst" := strApp_st_ne_gst low (lowerStr f)
  have hgst_st : low ++ "_gst" ≠ lowerStr f ++ "_st" := strApp_gst_ne_st low (lowerStr f)
  have hgst_gst : low ++ "_gst" ≠ lowerStr f ++ "_gst" :=
    strApp_ne_of_ne "_gst" (fun e => hne e.symm)
  split
  · intro scol gcol i h1 h2 h3
    rw [lookupCol_setCol_other _ _ _ _ hst_gst, lookupCol_setCol_other _ _ _ _ hst_st] at h1
    rw [lookupCol_setCol_other _ _ _ _ hgst_gst, lookupCol_setCol_other _ _ _ _ hgst_st] at h2
    exact h scol gcol i h1 h2 h3
  · intro scol gcol i h1 h2 h3
    rw [lookupCol_setCol_other _ _ _ _ hst_gst, lookupCol_setCol_other _ _ _ _ hst_st] at h1
    rw [lookupCol_setCol_other _ _ _ _ hgst_gst, lookupCol_setCol_other _ _ _ _ hgst_st] at h2
    exact h scol gcol i h1 h2 h3

theorem foldl_stepP_gstImpliesSt (sv : ParamVal) (fs : List String) :
    ∀ st8 : Df × Config,
      (∀ f ∈ fs, (splitUnderscore (lowerStr f)).length = 2) →
      ∀ low : String,
        ((∃ f ∈ fs, lowerStr f = low) ∨ gstImpliesSt st8.1 low) →
        gstImpliesSt (List.foldl (stepP sv) st8 fs).1 low := by
  induction fs with
  | nil =>
    intro st8 _ low h
    rcases h with ⟨f, hf, _⟩ | h
    · exact absurd hf (List.not_mem_nil f)
    · exact h
  | cons f rest ih =>
    intro st8 hsp low h
    rw [List.foldl_cons]
    apply ih (stepP sv st8 f) (fun g hg => hsp g (List.mem_cons_of_mem f hg)) low
    by_cases hf : lowerStr f = low
    · right
      rw [← hf]
      obtain ⟨d0, fp, hs⟩ := list_len2 (hsp f (List.mem_cons_self f rest))
      exact stepP_fresh_gstImpliesSt sv st8 f d0 fp hs
    · rcases h with ⟨g, hg, hlow⟩ | hpred
      · rcases List.mem_cons.mp hg with rfl | hg2
        · exact absurd hlow hf
        · exact .inl ⟨g, hg2, hlow⟩
      · exact .inr (stepP_other_gstImpliesSt sv st8 f hpred hf)

/-- C1: whenever `cull_fakestars` returns (without the uncaught
unpacking error) for a filter list containing `f`, every row whose
`<f.lower()>_gst` flag is `true` also has `<f.lower()>_st` equal to
`true`: GST is a refinement of ST.  On the per-filter failure branch
both columns hold the `na` marker so no row has `gst = true`, and on the
success branch `gst` is the conjunction of `st` with the crowding cut
(lines 162-163). -/
theorem c1_gst_refines_st (df : Df) (fs : List String) (cfg : Config)
    (d : Df) (c : Config) (f : String) (scol gcol : List CellVal)
    (hok : cull_fakestars df fs cfg = .ok (d, c)) (hf : f ∈ fs)
    (hst : lookupCol d (lowerStr f ++ "_st") = some scol)
    (hgst : lookupCol d (lowerStr f ++ "_gst") = some gcol)
    (i : Nat) (hi : gcol[i]? = some (CellVal.bool true)) :
    scol[i]? = some (CellVal.bool true) := by
  obtain ⟨hsp, hout⟩ := cull_ok_inv df fs cfg (d, c) hok
  have hd : d = (cullP df fs cfg).1 := congrArg Prod.fst hout
  have hinv := foldl_stepP_gstImpliesSt (snrcutOf cfg) fs (df, cfg) hsp
    (lowerStr f) (.inl ⟨f, hf, rfl⟩)
  rw [hd] at hst hgst
  exact hinv scol gcol i hst hgst hi

/-- Witness for C1 at the Scenario B/C catalog: rows flagged
`(true, false)` in both columns, checked at row 0. -/
theorem c1_gst_refines_st_witness :
    (lookupCol (cullP c5_df_actual ["WFC3_F814W"] ⟨[]⟩).1 (lowerStr "WFC3_F814W" ++ "_st") =
      some [CellVal.bool true, CellVal.bool false]) ∧
    [CellVal.bool true, CellVal.bool false][0]? = some (CellVal.bool true) :=
  ⟨by decide,
   c1_gst_refines_st c5_df_actual ["WFC3_F814W"] ⟨[]⟩
     (cullP c5_df_actual ["WFC3_F814W"] ⟨[]⟩).1 (cullP c5_df_actual ["WFC3_F814W"] ⟨[]⟩).2
     "WFC3_F814W" [CellVal.bool true, CellVal.bool false]
     [CellVal.bool true, CellVal.bool false]
     (by decide) (by decide) (by decide) (by decide) 0 (by decide)⟩

/-! ## Column-name disjointness

The five columns `cull_fakestars` touches for one filter can never
collide with those of a filter whose lowered token differs: the three
measurement suffixers end in `r`/`p`/`d`, the flag suffixes end in `t`,
equal suffixes force equal tokens, and `_st`/`_gst` cannot align because
cancelling `st` leaves `_` against `g`. -/

theorem notmem_snr {g x : String} (h : g ≠ x) : (g ++ "_snr") ∉ xNames x := by
  intro hm
  simp only [xNames, List.mem_cons, List.not_mem_nil, or_false] at hm
  rcases hm with h1 | h1 | h1 | h1 | h1
  · exact strApp_ne_of_ne "_snr" h h1
  · exact strApp_ne_of_last (u := ['_', 's', 'n']) (a := 'r')
      (v := ['_', 's', 'h', 'a', 'r']) (b := 'p') rfl rfl (by decide) g x h1
  · exact strApp_ne_of_last (u := ['_', 's', 'n']) (a := 'r')
      (v := ['_', 'c', 'r', 'o', 'w']) (b := 'd') rfl rfl (by decide) g x h1
  · exact strApp_ne_of_last (u := ['_', 's', 'n']) (a := 'r')
      (v := ['_', 's']) (b := 't') rfl rfl (by decide) g x h1
  · exact strApp_ne_of_last (u := ['_', 's', 'n']) (a := 'r')
      (v := ['_', 'g', 's']) (b := 't') rfl rfl (by decide) g x h1

theorem notmem_sharp {g x : String} (h : g ≠ x) : (g ++ "_sharp") ∉ xNames x := by
  intro hm
  simp only [xNames, List.mem_cons, List.not_mem_nil, or_false] at hm
  rcases hm with h1 | h1 | h1 | h1 | h1
  · exact strApp_ne_of_last (u := ['_', 's', 'h', 'a', 'r']) (a := 'p')
      (v := ['_', 's', 'n']) (b := 'r') rfl rfl (by decide) g x h1
  · exact strApp_ne_of_ne "_sharp" h h1
  · exact strApp_ne_of_last (u := ['_', 's', 'h', 'a', 'r']) (a := 'p')
      (v := ['_', 'c', 'r', 'o', 'w']) (b := 'd') rfl rfl (by decide) g x h1
  · exact strApp_ne_of_last (u := ['_', 's', 'h', 'a', 'r']) (a := 'p')
      (v := ['_', 's']) (b := 't') rfl rfl (by decide) g x h1
  · exact strApp_ne_of_last (u := ['_', 's', 'h', 'a', 'r']) (a := 'p')
      (v := ['_', 'g', 's']) (b := 't') rfl rfl (by decide) g x h1

theorem notmem_crowd {g x : String} (h : g ≠ x) : (g ++ "_crowd") ∉ xNames x := by
  intro hm
  simp only [xNames, List.mem_cons, List.not_mem_nil, or_false] at hm
  rcases hm with h1 | h1 | h1 | h1 | h1
  · exact strApp_ne_of_last (u := ['_', 'c', 'r', 'o', 'w']) (a := 'd')
      (v := ['_', 's', 'n']) (b := 'r') rfl rfl (by decide) g x h1
  · exact strApp_ne_of_last (u := ['_', 'c', 'r', 'o', 'w']) (a := 'd')
      (v := ['_', 's', 'h', 'a', 'r']) (b := 'p') rfl rfl (by decide) g x h1
  · exact strApp_ne_of_ne "_crowd" h h1
  · exact strApp_ne_of_last (u := ['_', 'c', 'r', 'o', 'w']) (a := 'd')
      (v := ['_', 's']) (b := 't') rfl rfl (by decide) g x h1
  · exact strApp_ne_of_last (u := ['_', 'c', 'r', 'o', 'w']) (a := 'd')
      (v := ['_', 'g', 's']) (b := 't') rfl rfl (by decide) g x h1

theorem notmem_st {g x : String} (h : g ≠ x) : (g ++ "_st") ∉ xNames x := by
  intro hm
  simp only [xNames, List.mem_cons, List.not_mem_nil, or_false] at hm
  rcases hm with h1 | h1 | h1 | h1 | h1
  · exact strApp_ne_of_last (u := ['_', 's']) (a := 't')
      (v := ['_', 's', 'n']) (b := 'r') rfl rfl (by decide) g x h1
  · exact strApp_ne_of_last (u := ['_', 's']) (a := 't')
      (v := ['_', 's', 'h', 'a', 'r']) (b := 'p') rfl rfl (by decide) g x h1
  · exact strApp_ne_of_last (u := ['_', 's']) (a := 't')
      (v := ['_', 'c', 'r', 'o', 'w']) (b := 'd') rfl rfl (by decide) g x h1
  · exact strApp_ne_of_ne "_st" h h1
  · exact strApp_st_ne_gst g x h1

theorem notmem_gst {g x : String} (h : g ≠ x) : (g ++ "_gst") ∉ xNames x := by
  intro hm
  simp only [xNames, List.mem_cons, List.not_mem_nil, or_false] at hm
  rcases hm with h1 | h1 | h1 | h1 | h1
  · exact strApp_ne_of_last (u := ['_', 'g', 's']) (a := 't')
      (v := ['_', 's', 'n']) (b := 'r') rfl rfl (by decide) g x h1
  · exact strApp_ne_of_last (u := ['_', 'g', 's']) (a := 't')
      (v := ['_', 's', 'h', 'a', 'r']) (b := 'p') rfl rfl (by decide) g x h1
  · exact strApp_ne_of_last (u := ['_', 'g', 's']) (a := 't')
      (v := ['_', 'c', 'r', 'o', 'w']) (b := 'd') rfl rfl (by decide) g x h1
  · exact strApp_gst_ne_st g x h1
  · exact strApp_ne_of_ne "_gst" h h1

theorem mem_xNames_st (x : String) : (x ++ "_st") ∈ xNames x := by
  simp [xNames]

theorem mem_xNames_gst (x : String) : (x ++ "_gst") ∈ xNames x := by
  simp [xNames]

/-! ## Per-filter fault isolation (claim C2) -/

theorem tryFlags_none_fst (sv : ParamVal) (b c : Option (List CellVal))
    (sp cp : Option ParamVal) : tryFlags sv none b c sp cp = none := by
  unfold tryFlags
  rcases paramAsNum sv <;> rcases b <;> rcases sp.bind paramAsNum <;>
    rcases c <;> rcases cp.bind paramAsNum <;> rfl

theorem tryFlags_none_of_missing (sv : ParamVal) (a b c : Option (List CellVal))
    (sp cp : Option ParamVal) (h : a = none ∨ b = none ∨ c = none) :
    tryFlags sv a b c sp cp = none := by
  unfold tryFlags
  rcases a <;> rcases paramAsNum sv <;> rcases b <;> rcases sp.bind paramAsNum <;>
    rcases c <;> rcases cp.bind paramAsNum <;>
    first
    | rfl
    | (rcases h with h | h | h <;> exact Option.noConfusion h)

/-- Writing the two flag columns of any filter token `y` never touches a
measurement column: each measurement suffix ends in `r`/`p`/`d` while
the flag suffixes end in `t`. -/
theorem xMissing_setCol_flags (low y : String) (df : Df) (c1 c2 : List CellVal)
    (h : xMissing low df) :
    xMissing low (setCol (setCol df (y ++ "_st") c1) (y ++ "_gst") c2) := by
  have h1 : (low ++ "_snr") ≠ (y ++ "_st") :=
    strApp_ne_of_last (u := ['_', 's', 'n']) (a := 'r')
      (v := ['_', 's']) (b := 't') rfl rfl (by decide) low y
  have h2 : (low ++ "_snr") ≠ (y ++ "_gst") :=
    strApp_ne_of_last (u := ['_', 's', 'n']) (a := 'r')
      (v := ['_', 'g', 's']) (b := 't') rfl rfl (by decide) low y
  have h3 : (low ++ "_sharp") ≠ (y ++ "_st") :=
    strApp_ne_of_last (u := ['_', 's', 'h', 'a', 'r']) (a := 'p')
      (v := ['_', 's']) (b := 't') rfl rfl (by decide) low y
  have h4 : (low ++ "_sharp") ≠ (y ++ "_gst") :=
    strApp_ne_of_last (u := ['_', 's', 'h', 'a', 'r']) (a := 'p')
      (v := ['_', 'g', 's']) (b := 't') rfl rfl (by decide) low y
  have h5 : (low ++ "_crowd") ≠ (y ++ "_st") :=
    strApp_ne_of_last (u := ['_', 'c', 'r', 'o', 'w']) (a := 'd')
      (v := ['_', 's']) (b := 't') rfl rfl (by decide) low y
  have h6 : (low ++ "_crowd") ≠ (y ++ "_gst") :=
    strApp_ne_of_last (u := ['_', 'c', 'r', 'o', 'w']) (a := 'd')
      (v := ['_', 'g', 's']) (b := 't') rfl rfl (by decide) low y
  rcases h with h | h | h
  · left
    rw [lookupCol_setCol_other _ _ _ _ h2, lookupCol_setCol_other _ _ _ _ h1]
    exact h
  · right
    left
    rw [lookupCol_setCol_other _ _ _ _ h4, lookupCol_setCol_other _ _ _ _ h3]
    exact h
  · right
    right
    rw [lookupCol_setCol_other _ _ _ _ h6, lookupCol_setCol_other _ _ _ _ h5]
    exact h

theorem stepP_eq_of_split (sv : ParamVal) (df : Df) (cfg : Config) (f d0 fp : String)
    (hs : splitUnderscore (lowerStr f) = [d0, fp]) :
    stepP sv (df, cfg) f =
      (match tryFlags sv (lookupCol df (lowerStr f ++ "_snr"))
          (lookupCol df (lowerStr f ++ "_sharp"))
          (lookupCol df (lowerStr f ++ "_crowd"))
          (lookupParam (detConfig cfg d0 fp).2 ((detConfig cfg d0 fp).1 ++ "_sharp"))
          (lookupParam (detConfig cfg d0 fp).2 ((detConfig cfg d0 fp).1 ++ "_crowd")) with
        | some pr =>
          (setCol (setCol df (lowerStr f ++ "_st") (pr.1.map CellVal.bool))
            (lowerStr f ++ "_gst") (pr.2.map CellVal.bool), (detConfig cfg d0 fp).2)
        | none =>
          (setCol (setCol df (lowerStr f ++ "_st") (List.replicate df.nrows CellVal.na))
            (lowerStr f ++ "_gst") (List.replicate df.nrows CellVal.na),
            (detConfig cfg d0 fp).2)) := by
  unfold stepP
  rw [hs]

theorem c2_step_main (sv : ParamVal) (lowX : String) (N : Nat) (fs : List String) :
    ∀ (df1 df2 : Df) (cfg : Config),
      (∀ f ∈ fs, (splitUnderscore (lowerStr f)).length = 2) →
      df1.nrows = N → df2.nrows = N →
      agreeOutside lowX df1 df2 →
      xMissing lowX df1 →
      agreeOutside lowX (List.foldl (stepP sv) (df1, cfg) fs).1
          (List.foldl (stepP sv) (df2, cfg) fs).1 ∧
        xMissing lowX (List.foldl (stepP sv) (df1, cfg) fs).1 ∧
        (flagsNa lowX N df1 → flagsNa lowX N (List.foldl (stepP sv) (df1, cfg) fs).1) ∧
        (∀ f ∈ fs, lowerStr f = lowX →
          flagsNa lowX N (List.foldl (stepP sv) (df1, cfg) fs).1) := by
  induction fs with
  | nil =>
    intro df1 df2 cfg _ _ _ hagree hmiss
    exact ⟨hagree, hmiss, fun hf => hf, fun f hf => absurd hf (List.not_mem_nil f)⟩
  | cons f rest ih =>
    intro df1 df2 cfg hsp h1N h2N hagree hmiss
    obtain ⟨d0, fp, hs⟩ := list_len2 (hsp f (List.mem_cons_self f rest))
    have hsnr_ne_st : (lowX ++ "_snr") ≠ (lowerStr f ++ "_st") :=
      strApp_ne_of_last (u := ['_', 's', 'n']) (a := 'r')
        (v := ['_', 's']) (b := 't') rfl rfl (by decide) lowX (lowerStr f)
    have hsnr_ne_gst : (lowX ++ "_snr") ≠ (lowerStr f ++ "_gst") :=
      strApp_ne_of_last (u := ['_', 's', 'n']) (a := 'r')
        (v := ['_', 'g', 's']) (b := 't') rfl rfl (by decide) lowX (lowerStr f)
    rw [List.foldl_cons, List.foldl_cons,
      stepP_eq_of_split sv df1 cfg f d0 fp hs, stepP_eq_of_split sv df2 cfg f d0 fp hs]
    by_cases hf : lowerStr f = lowX
    -- the malformed filter itself (or another filter with the same lowered token)
    · rw [tryFlags_none_of_missing sv (lookupCol df1 (lowerStr f ++ "_snr"))
        (lookupCol df1 (lowerStr f ++ "_sharp")) (lookupCol df1 (lowerStr f ++ "_crowd"))
        (lookupParam (detConfig cfg d0 fp).2 ((detConfig cfg d0 fp).1 ++ "_sharp"))
        (lookupParam (detConfig cfg d0 fp).2 ((detConfig cfg d0 fp).1 ++ "_crowd"))
        (by rw [hf]; exact hmiss)]
      set stN := lowerStr f ++ "_st" with hstN
      set gstN := lowerStr f ++ "_gst" with hgstN
      have hst_gst : stN ≠ gstN := strApp_ne_of_suffix_ne (lowerStr f) (by decide)
      -- run 1 writes the na pair; run 2 writes whatever its own branch gives
      have key : ∀ dfx : Df,
          agreeOutside lowX (setCol (setCol df1 stN (List.replicate df1.nrows CellVal.na))
              gstN (List.replicate df1.nrows CellVal.na)) dfx →
          (setCol (setCol df1 stN (List.replicate df1.nrows CellVal.na))
              gstN (List.replicate df1.nrows CellVal.na)).nrows = N →
          dfx.nrows = N →
          agreeOutside lowX (List.foldl (stepP sv)
              (setCol (setCol df1 stN (List.replicate df1.nrows CellVal.na))
                gstN (List.replicate df1.nrows CellVal.na), (detConfig cfg d0 fp).2) rest).1
            (List.foldl (stepP sv) (dfx, (detConfig cfg d0 fp).2) rest).1 ∧
          xMissing lowX (List.foldl (stepP sv)
              (setCol (setCol df1 stN (List.replicate df1.nrows CellVal.na))
                gstN (List.replicate df1.nrows CellVal.na), (detConfig cfg d0 fp).2) rest).1 ∧
          (flagsNa lowX N (setCol (setCol df1 stN (List.replicate df1.nrows CellVal.na))
              gstN (List.replicate df1.nrows CellVal.na)) →
            flagsNa lowX N (List.foldl (stepP sv)
              (setCol (setCol df1 stN (List.replicate df1.nrows CellVal.na))
                gstN (List.replicate df1.nrows CellVal.na), (detConfig cfg d0 fp).2) rest).1) ∧
          (∀ g ∈ rest, lowerStr g = lowX →
            flagsNa lowX N (List.foldl (stepP sv)
              (setCol (setCol df1 stN (List.replicate df1.nrows CellVal.na))
                gstN (List.replicate df1.nrows CellVal.na), (detConfig cfg d0 fp).2) rest).1) := by
        intro dfx hagx hn1 hnx
        refine ih _ dfx ((detConfig cfg d0 fp).2)
          (fun g hg => hsp g (List.mem_cons_of_mem f hg)) hn1 hnx hagx ?_
        rw [hstN, hgstN]
        exact xMissing_setCol_flags lowX (lowerStr f) df1 _ _ hmiss
      have hfreshNa : flagsNa lowX N (setCol (setCol df1 stN (List.replicate df1.nrows CellVal.na))
          gstN (List.replicate df1.nrows CellVal.na)) := by
        constructor
        · rw [← hf, ← hstN, lookupCol_setCol_other _ _ _ _ hst_gst,
            lookupCol_setCol_self, h1N]
        · rw [← hf, ← hgstN, lookupCol_setCol_self, h1N]
      have hnrows1 : (setCol (setCol df1 stN (List.replicate df1.nrows CellVal.na))
          gstN (List.replicate df1.nrows CellVal.na)).nrows = N := by
        rw [nrows_setCol, nrows_setCol]
        exact h1N
      -- agreement with run 2's state, whichever branch it takes
      have hagree2 : ∀ colsSt colsGst,
          agreeOutside lowX (setCol (setCol df1 stN (List.replicate df1.nrows CellVal.na))
              gstN (List.replicate df1.nrows CellVal.na))
            (setCol (setCol df2 stN colsSt) gstN colsGst) := by
        intro colsSt colsGst name hname
        have hnst : name ≠ stN := by
          intro he
          rw [hstN, hf] at he
          exact hname (he ▸ mem_xNames_st lowX)
        have hngst : name ≠ gstN := by
          intro he
          rw [hgstN, hf] at he
          exact hname (he ▸ mem_xNames_gst lowX)
        rw [lookupCol_setCol_other _ _ _ _ hngst, lookupCol_setCol_other _ _ _ _ hnst,
          lookupCol_setCol_other _ _ _ _ hngst, lookupCol_setCol_other _ _ _ _ hnst]
        exact hagree name hname
      rcases htr2 : tryFlags sv (lookupCol df2 (lowerStr f ++ "_snr"))
          (lookupCol df2 (lowerStr f ++ "_sharp"))
          (lookupCol df2 (lowerStr f ++ "_crowd"))
          (lookupParam (detConfig cfg d0 fp).2 ((detConfig cfg d0 fp).1 ++ "_sharp"))
          (lookupParam (detConfig cfg d0 fp).2 ((detConfig cfg d0 fp).1 ++ "_crowd")) with
        _ | pr
      · have hk := key (setCol (setCol df2 stN (List.replicate df2.nrows CellVal.na))
            gstN (List.replicate df2.nrows CellVal.na))
          (hagree2 _ _) hnrows1 (by rw [nrows_setCol, nrows_setCol]; exact h2N)
        refine ⟨hk.1, hk.2.1, fun _ => hk.2.2.1 hfreshNa, ?_⟩
        intro g hg hlg
        rcases List.mem_cons.mp hg with rfl | hg2
        · exact hk.2.2.1 hfreshNa
        · exact hk.2.2.2 g hg2 hlg
      · have hk := key (setCol (setCol df2 stN (pr.1.map CellVal.bool))
            gstN (pr.2.map CellVal.bool))
          (hagree2 _ _) hnrows1 (by rw [nrows_setCol, nrows_setCol]; exact h2N)
        refine ⟨hk.1, hk.2.1, fun _ => hk.2.2.1 hfreshNa, ?_⟩
        intro g hg hlg
        rcases List.mem_cons.mp hg with rfl | hg2
        · exact hk.2.2.1 hfreshNa
        · exact hk.2.2.2 g hg2 hlg
    -- a filter with a different lowered token: both runs behave identically
    · have hrsnr : lookupCol df1 (lowerStr f ++ "_snr") = lookupCol df2 (lowerStr f ++ "_snr") :=
        hagree _ (notmem_snr hf)
      have hrsharp : lookupCol df1 (lowerStr f ++ "_sharp") =
          lookupCol df2 (lowerStr f ++ "_sharp") := hagree _ (notmem_sharp hf)
      have hrcrowd : lookupCol df1 (lowerStr f ++ "_crowd") =
          lookupCol df2 (lowerStr f ++ "_crowd") := hagree _ (notmem_crowd hf)
      rw [hrsnr, hrsharp, hrcrowd]
      set stN := lowerStr f ++ "_st" with hstN
      set gstN := lowerStr f ++ "_gst" with hgstN
      have hXst_st : (lowX ++ "_st") ≠ stN := by
        rw [hstN]
        exact strApp_ne_of_ne "_st" (fun e => hf e.symm)
      have hXst_gst : (lowX ++ "_st") ≠ gstN := by
        rw [hgstN]
        exact strApp_st_ne_gst lowX (lowerStr f)
      have hXgst_st : (lowX ++ "_gst") ≠ stN := by
        rw [hstN]
        exact strApp_gst_ne_st lowX (lowerStr f)
      have hXgst_gst : (lowX ++ "_gst") ≠ gstN := by
        rw [hgstN]
        exact strApp_ne_of_ne "_gst" (fun e => hf e.symm)
      -- common continuation for equal written columns
      have key2 : ∀ (c1 c2 : List CellVal),
          agreeOutside lowX (setCol (setCol df1 stN c1) gstN c2)
              (setCol (setCol df2 stN c1) gstN c2) ∧
            xMissing lowX (setCol (setCol df1 stN c1) gstN c2) ∧
            (flagsNa lowX N df1 → flagsNa lowX N (setCol (setCol df1 stN c1) gstN c2)) := by
        intro c1 c2
        refine ⟨?_, ?_, ?_⟩
        · intro name hname
          by_cases hgn : name = gstN
          · rw [hgn, lookupCol_setCol_self, lookupCol_setCol_self]
          · by_cases hsn : name = stN
            · rw [lookupCol_setCol_other _ _ _ _ hgn, lookupCol_setCol_other _ _ _ _ hgn,
                hsn, lookupCol_setCol_self, lookupCol_setCol_self]
            · rw [lookupCol_setCol_other _ _ _ _ hgn, lookupCol_setCol_other _ _ _ _ hsn,
                lookupCol_setCol_other _ _ _ _ hgn, lookupCol_setCol_other _ _ _ _ hsn]
              exact hagree name hname
        · rw [hstN, hgstN]
          exact xMissing_setCol_flags lowX (lowerStr f) df1 c1 c2 hmiss
        · intro hfl
          exact ⟨by rw [lookupCol_setCol_other _ _ _ _ hXst_gst,
              lookupCol_setCol_other _ _ _ _ hXst_st]; exact hfl.1,
            by rw [lookupCol_setCol_other _ _ _ _ hXgst_gst,
              lookupCol_setCol_other _ _ _ _ hXgst_st]; exact hfl.2⟩
      rcases htr : tryFlags sv (lookupCol df2 (lowerStr f ++ "_snr"))
          (lookupCol df2 (lowerStr f ++ "_sharp"))
          (lookupCol df2 (lowerStr f ++ "_crowd"))
          (lookupParam (detConfig cfg d0 fp).2 ((detConfig cfg d0 fp).1 ++ "_sharp"))
          (lookupParam (detConfig cfg d0 fp).2 ((detConfig cfg d0 fp).1 ++ "_crowd")) with
        _ | pr
      -- both runs fail on this filter: same na columns (row counts agree)
      · have hrep : List.replicate df1.nrows CellVal.na = List.replicate df2.nrows CellVal.na := by
          rw [h1N, h2N]
        have hk2 := key2 (List.replicate df1.nrows CellVal.na)
          (List.replicate df1.nrows CellVal.na)
        have hih := ih (setCol (setCol df1 stN (List.replicate df1.nrows CellVal.na))
            gstN (List.replicate df1.nrows CellVal.na))
          (setCol (setCol df2 stN (List.replicate df2.nrows CellVal.na))
            gstN (List.replicate df2.nrows CellVal.na))
          ((detConfig cfg d0 fp).2)
          (fun g hg => hsp g (List.mem_cons_of_mem f hg))
          (by rw [nrows_setCol, nrows_setCol]; exact h1N)
          (by rw [nrows_setCol, nrows_setCol]; exact h2N)
          (by rw [← hrep]; exact hk2.1) hk2.2.1
        refine ⟨hih.1, hih.2.1, fun hfl => hih.2.2.1 (hk2.2.2 hfl), ?_⟩
        intro g hg hlg
        rcases List.mem_cons.mp hg with rfl | hg2
        · exact absurd hlg hf
        · exact hih.2.2.2 g hg2 hlg
      -- both runs succeed identically on this filter
      · have hk2 := key2 (pr.1.map CellVal.bool) (pr.2.map CellVal.bool)
        have hih := ih (setCol (setCol df1 stN (pr.1.map CellVal.bool))
            gstN (pr.2.map CellVal.bool))
          (setCol (setCol df2 stN (pr.1.map CellVal.bool))
            gstN (pr.2.map CellVal.bool))
          ((detConfig cfg d0 fp).2)
          (fun g hg => hsp g (List.mem_cons_of_mem f hg))
          (by rw [nrows_setCol, nrows_setCol]; exact h1N)
          (by rw [nrows_setCol, nrows_setCol]; exact h2N)
          hk2.1 hk2.2.1
        refine ⟨hih.1, hih.2.1, fun hfl => hih.2.2.1 (hk2.2.2 hfl), ?_⟩
        intro g hg hlg
        rcases List.mem_cons.mp hg with rfl | hg2
        · exact absurd hlg hf
        · exact hih.2.2.2 g hg2 hlg

/-- C2: if the catalog is missing any of filter `X`'s required
measurement columns (`<X.lower()>_snr` / `_sharp` / `_crowd`, the
lookups of the `try` block), then `cull_fakestars` still returns
normally, writes the explicit undefined marker (NaN, embedded as `na` —
not `False`) into both of `X`'s flag columns, and for every other
filter in the list produces flag columns identical to those of a run on
a catalog `df2` that agrees with `df1` outside `X`'s five columns — in
particular a run in which `X`'s data is well-formed.  The parameter
store ends up identical in both runs, so processing of the remaining
filters is unaffected. -/
theorem c2_per_filter_fault_isolation (fs : List String) (X : String)
    (df1 df2 : Df) (cfg : Config)
    (hsp : ∀ f ∈ fs, (splitUnderscore (lowerStr f)).length = 2)
    (hX : X ∈ fs)
    (hrows : df1.nrows = df2.nrows)
    (hagree : agreeOutside (lowerStr X) df1 df2)
    (hmiss : xMissing (lowerStr X) df1) :
    cull_fakestars df1 fs cfg = .ok (cullP df1 fs cfg) ∧
    cull_fakestars df2 fs cfg = .ok (cullP df2 fs cfg) ∧
    (cullP df1 fs cfg).2 = (cullP df2 fs cfg).2 ∧
    lookupCol (cullP df1 fs cfg).1 (lowerStr X ++ "_st") =
      some (List.replicate df1.nrows CellVal.na) ∧
    lookupCol (cullP df1 fs cfg).1 (lowerStr X ++ "_gst") =
      some (List.replicate df1.nrows CellVal.na) ∧
    ∀ g ∈ fs, lowerStr g ≠ lowerStr X →
      lookupCol (cullP df1 fs cfg).1 (lowerStr g ++ "_st") =
        lookupCol (cullP df2 fs cfg).1 (lowerStr g ++ "_st") ∧
      lookupCol (cullP df1 fs cfg).1 (lowerStr g ++ "_gst") =
        lookupCol (cullP df2 fs cfg).1 (lowerStr g ++ "_gst") := by
  have hmain := c2_step_main (snrcutOf cfg) (lowerStr X) df1.nrows fs df1 df2 cfg
    hsp rfl hrows.symm hagree hmiss
  have hflags := hmain.2.2.2 X hX rfl
  refine ⟨cull_ok_of_splits df1 fs cfg hsp, cull_ok_of_splits df2 fs cfg hsp, ?_,
    hflags.1, hflags.2, ?_⟩
  · show (List.foldl (stepP (snrcutOf cfg)) (df1, cfg) fs).2 =
      (List.foldl (stepP (snrcutOf cfg)) (df2, cfg) fs).2
    rw [foldl_stepP_snd, foldl_stepP_snd]
  · intro g hg hne
    exact ⟨hmain.1 _ (notmem_st hne), hmain.1 _ (notmem_gst hne)⟩

/-- Witness for C2: the catalog `c2_df1` lacks `WFC3_F814W`'s columns;
`c2_df2` adds them.  `cull_fakestars` returns normally, marks
`wfc3_f814w_st`/`_gst` as `na`, and produces the same `acs_f606w` flags
in both runs. -/
theorem c2_per_filter_fault_isolation_witness :
    cull_fakestars c2_df1 ["WFC3_F814W", "ACS_F606W"] ⟨[]⟩ =
      .ok (cullP c2_df1 ["WFC3_F814W", "ACS_F606W"] ⟨[]⟩) ∧
    lookupCol (cullP c2_df1 ["WFC3_F814W", "ACS_F606W"] ⟨[]⟩).1
      (lowerStr "WFC3_F814W" ++ "_st") = some [CellVal.na] ∧
    lookupCol (cullP c2_df1 ["WFC3_F814W", "ACS_F606W"] ⟨[]⟩).1
      (lowerStr "ACS_F606W" ++ "_st") =
      lookupCol (cullP c2_df2 ["WFC3_F814W", "ACS_F606W"] ⟨[]⟩).1
        (lowerStr "ACS_F606W" ++ "_st") := by
  have hagree : agreeOutside (lowerStr "WFC3_F814W") c2_df1 c2_df2 := by
    intro name hname
    have hh : alistHas c2_extra name = false := by
      rw [Bool.eq_false_iff]
      intro htrue
      obtain ⟨p, hp, hpe⟩ := List.any_eq_true.mp htrue
      have hpname : p.1 = name := by simpa using hpe
      apply hname
      rw [← hpname]
      simp only [c2_extra, List.mem_cons, List.not_mem_nil, or_false] at hp
      rcases hp with rfl | rfl | rfl <;> decide
    show lookupCol c2_df1 name = lookupCol c2_df2 name
    exact (alistFind_append_right c2_df1.cols c2_extra name hh).symm
  have h := c2_per_filter_fault_isolation ["WFC3_F814W", "ACS_F606W"] "WFC3_F814W"
    c2_df1 c2_df2 ⟨[]⟩ (by decide) (by decide) (by decide) hagree (.inl (by decide))
  exact ⟨h.1, h.2.2.2.1, (h.2.2.2.2.2 "ACS_F606W" (by decide) (by decide)).1⟩

/-! ## Schema Resolver scenarios (claims C3 and C4) -/

/-- C3 counterexample: on the Scenario A inputs `name_columns` does not
return the claimed name sequence and filter set — it does not return at
all: line 270 iterates the undefined variable `imnames` and raises
`NameError` before any semantic name beyond the four position columns is
assigned. -/
theorem c3_scenarioA_counterexample :
    name_columns scA_descs scA_imnames ≠ .ok (scA_claimed, ["F814W"]) := by
  decide

/-- C3 amended: on the Scenario A inputs (as on every input with at
least four description rows) `name_columns` raises
`NameError: name 'imnames' is not defined` at line 270 and never
produces a name sequence or a filter set. -/
theorem c3_scenarioA_amended :
    name_columns scA_descs scA_imnames =
      .error "NameError: name 'imnames' is not defined" := by
  decide

/-- C4 counterexample: `name_columns` performs no SchemaMismatch
validation (it contains none, and cannot: it raises `NameError` at line
270 before any schema checking could run).  On the schema-ill-formed
input `c4_descs` (duplicate descriptions, one unmatched column) and on
the well-formed Scenario A input alike, the outcome is the identical
`NameError` — the function neither fails with SchemaMismatch on the bad
input nor returns successfully on the good one, refuting both readings
of the claim. -/
theorem c4_no_schema_mismatch_counterexample :
    name_columns c4_descs scA_imnames =
      .error "NameError: name 'imnames' is not defined" ∧
    name_columns scA_descs scA_imnames =
      .error "NameError: name 'imnames' is not defined" := by
  exact ⟨by decide, by decide⟩

/-- C4 amended: for every description list with at least the four rows
consumed by line 268's position-column assignment, and every manifest,
`name_columns` raises `NameError: name 'imnames' is not defined` at
line 270; it never returns, so no input ever reaches a SchemaMismatch
check and no successful resolved mapping exists. -/
theorem c4_amended_no_validation (descs imnames : List String)
    (h : 4 ≤ descs.length) :
    name_columns descs imnames =
      .error "NameError: name 'imnames' is not defined" := by
  unfold name_columns
  rw [if_pos h]

/-- C4 witness: the general NameError theorem applied at the concrete
schema-ill-formed input `c4_descs`. -/
theorem c4_amended_no_validation_witness :
    name_columns c4_descs scA_imnames =
      .error "NameError: name 'imnames' is not defined" :=
  c4_amended_no_validation c4_descs scA_imnames (by decide)

/-! ## Quality-cut scenarios (claim C5) -/

/-- C5 counterexample: on the catalog named as the claim states
(`f814w_snr`, `f814w_sharp`, `f814w_crowd`) with filter list
`[WFC3_F814W]`, `cull_fakestars` looks up `wfc3_f814w_snr` (the whole
lowered list entry, line 156), misses, and takes the exception branch:
no `f814w_st` column is ever created and the flag columns actually
written (`wfc3_f814w_st`, `wfc3_f814w_gst`) hold the `na` marker, not
`True`. -/
theorem c5_scenarioB_counterexample :
    cull_fakestars c5_df_claim ["WFC3_F814W"] ⟨[]⟩ =
      .ok (cullP c5_df_claim ["WFC3_F814W"] ⟨[]⟩) ∧
    lookupCol (cullP c5_df_claim ["WFC3_F814W"] ⟨[]⟩).1 "f814w_st" = none ∧
    lookupCol (cullP c5_df_claim ["WFC3_F814W"] ⟨[]⟩).1 "f814w_gst" = none ∧
    lookupCol (cullP c5_df_claim ["WFC3_F814W"] ⟨[]⟩).1 "wfc3_f814w_st" =
      some [CellVal.na] ∧
    lookupCol (cullP c5_df_claim ["WFC3_F814W"] ⟨[]⟩).1 "wfc3_f814w_gst" =
      some [CellVal.na] := by
  decide

/-- C5 amended: with the measurement columns named as `cull_fakestars`
reads them (`wfc3_f814w_*`), default parameters resolve the detector to
`uvis` (`f1` is not a substring of `f814w`), and the row with snr 5.0,
sharpness 0.1, crowding 1.0 receives `st = gst = True`
(5 > 4, 0.01 < 0.15, 1 < 1.3), while the row with snr 2.0 receives
`st = gst = False`. -/
theorem c5_scenarioBC_amended :
    cull_fakestars c5_df_actual ["WFC3_F814W"] ⟨[]⟩ =
      .ok (⟨2, [("wfc3_f814w_snr", [.num (mkRat 5 1), .num (mkRat 2 1)]),
        ("wfc3_f814w_sharp", [.num (mkRat 1 10), .num (mkRat 1 10)]),
        ("wfc3_f814w_crowd", [.num (mkRat 1 1), .num (mkRat 1 1)]),
        ("wfc3_f814w_st", [.bool true, .bool false]),
        ("wfc3_f814w_gst", [.bool true, .bool false])]⟩,
       ⟨[("uvis_sharp", .num (mkRat 15 100)), ("uvis_crowd", .num (mkRat 13 10))]⟩) := by
  decide

/-! ## Coordinate Attacher with several references (claim C8) -/

/-- C8 counterexample: with two reference images available the attacher
returns the catalog unchanged — no `ra`/`dec` columns are attached from
the first reference (lines 324-325 only print; the insertion happens
only in the exactly-one `else` branch). -/
theorem c8_multi_ref_counterexample :
    add_wcs c7_df ["r1", "r2"] c7_wcs = .ok c7_df ∧
    hasCol c7_df "ra" = false ∧ hasCol c7_df "dec" = false := by
  decide

/-- C8 amended: with more than one reference image available, `add_wcs`
reports the multiplicity and returns the catalog unchanged, attaching no
coordinates (it does not select the first reference). -/
theorem c8_amended_multi_ref_unchanged (df : Df) (w : ℚ → ℚ → ℚ × ℚ)
    (r1 r2 : String) (rs : List String) :
    add_wcs df (r1 :: r2 :: rs) w = .ok df := rfl

/-! ## Coordinate Attacher with zero or one reference (claim C7) -/

theorem insertCol_ok (df : Df) (loc : Nat) (name : String) (col : List CellVal)
    (hname : hasCol df name = false) (hloc : loc ≤ df.cols.length) :
    insertCol df loc name col =
      .ok ⟨df.nrows, df.cols.take loc ++ [(name, col)] ++ df.cols.drop loc⟩ := by
  unfold insertCol
  rw [if_neg (by simp [hname]), if_pos hloc]

theorem add_wcs_single_spec (df : Df) (r : String) (w : ℚ → ℚ → ℚ × ℚ)
    (xs ys : List CellVal)
    (hx : lookupCol df "x" = some xs) (hy : lookupCol df "y" = some ys) :
    add_wcs df [r] w =
      (match insertCol df 4 "ra"
          ((xs.zip ys).map (fun (p : CellVal × CellVal) => wcsCell w Prod.fst p.1 p.2)) with
        | .error e => (.error e : Except String Df)
        | .ok df2 => insertCol df2 5 "dec"
            ((xs.zip ys).map (fun (p : CellVal × CellVal) => wcsCell w Prod.snd p.1 p.2))) := by
  unfold add_wcs
  rw [hx, hy]

/-- C7: with zero astrometric references `add_wcs` returns the catalog
unchanged without raising; with exactly one reference it returns the
catalog with exactly the two new columns `ra`, `dec` spliced in at
0-indexed positions 4 and 5 (the first four columns unchanged, the rest
shifted right, values the WCS solution applied to the `x`/`y` pixel
columns). -/
theorem c7_add_wcs_zero_and_one (df : Df) (w : ℚ → ℚ → ℚ × ℚ) (r : String)
    (xs ys : List CellVal)
    (hx : lookupCol df "x" = some xs) (hy : lookupCol df "y" = some ys)
    (hra : hasCol df "ra" = false) (hdec : hasCol df "dec" = false)
    (hlen : 4 ≤ df.cols.length) :
    add_wcs df [] w = .ok df ∧
    add_wcs df [r] w = .ok ⟨df.nrows,
      df.cols.take 4 ++
        [("ra", (xs.zip ys).map (fun p => wcsCell w Prod.fst p.1 p.2)),
         ("dec", (xs.zip ys).map (fun p => wcsCell w Prod.snd p.1 p.2))] ++
        df.cols.drop 4⟩ := by
  refine ⟨rfl, ?_⟩
  have hAB : df.cols.take 4 ++ df.cols.drop 4 = df.cols := List.take_append_drop 4 df.cols
  have hdec2 : ((df.cols.take 4).any (fun p => p.1 == "dec") = false) ∧
      ((df.cols.drop 4).any (fun p => p.1 == "dec") = false) := by
    have hd : alistHas (df.cols.take 4 ++ df.cols.drop 4) "dec" = false := by
      rw [hAB]
      exact hdec
    rw [alistHas, List.any_append] at hd
    exact ⟨(Bool.or_eq_false_iff.mp hd).1, (Bool.or_eq_false_iff.mp hd).2⟩
  have htklen : (df.cols.take 4).length = 4 := by
    rw [List.length_take]
    omega
  rw [add_wcs_single_spec df r w xs ys hx hy,
    insertCol_ok df 4 "ra" _ hra (by omega)]
  have hdec3 : hasCol (⟨df.nrows, df.cols.take 4 ++
      [("ra", (xs.zip ys).map (fun (p : CellVal × CellVal) => wcsCell w Prod.fst p.1 p.2))] ++
      df.cols.drop 4⟩ : Df) "dec" = false := by
    show alistHas _ "dec" = false
    rw [alistHas, List.append_assoc, List.any_append, List.any_append]
    simp only [hdec2.1, hdec2.2, List.any_cons, List.any_nil]
    rfl
  show insertCol (⟨df.nrows, df.cols.take 4 ++
      [("ra", (xs.zip ys).map (fun (p : CellVal × CellVal) => wcsCell w Prod.fst p.1 p.2))] ++
      df.cols.drop 4⟩ : Df) 5 "dec"
      ((xs.zip ys).map (fun (p : CellVal × CellVal) => wcsCell w Prod.snd p.1 p.2)) = _
  rw [insertCol_ok _ 5 "dec" _ hdec3 (by
    show 5 ≤ (df.cols.take 4 ++ _ ++ df.cols.drop 4).length
    simp only [List.length_append, htklen, List.length_cons, List.length_nil]
    omega)]
  have h5 : (df.cols.take 4 ++
      [("ra", (xs.zip ys).map (fun (p : CellVal × CellVal) => wcsCell w Prod.fst p.1 p.2))]).length = 5 := by
    rw [List.length_append, htklen]
    rfl
  rw [show (df.cols.take 4 ++
      [("ra", (xs.zip ys).map (fun (p : CellVal × CellVal) => wcsCell w Prod.fst p.1 p.2))] ++
      df.cols.drop 4).take 5 = df.cols.take 4 ++
      [("ra", (xs.zip ys).map (fun (p : CellVal × CellVal) => wcsCell w Prod.fst p.1 p.2))] from
    List.take_left' h5]
  rw [show (df.cols.take 4 ++
      [("ra", (xs.zip ys).map (fun (p : CellVal × CellVal) => wcsCell w Prod.fst p.1 p.2))] ++
      df.cols.drop 4).drop 5 = df.cols.drop 4 from List.drop_left' h5]
  simp [List.append_assoc]

/-- Witness for C7 on the five-column catalog `c7_df`. -/
theorem c7_add_wcs_zero_and_one_witness :
    add_wcs c7_df [] c7_wcs = .ok c7_df ∧
    add_wcs c7_df ["r1"] c7_wcs = .ok ⟨c7_df.nrows,
      c7_df.cols.take 4 ++
        [("ra", (([CellVal.num (mkRat 3 1)].zip [CellVal.num (mkRat 4 1)]).map
            (fun p => wcsCell c7_wcs Prod.fst p.1 p.2))),
         ("dec", (([CellVal.num (mkRat 3 1)].zip [CellVal.num (mkRat 4 1)]).map
            (fun p => wcsCell c7_wcs Prod.snd p.1 p.2)))] ++
        c7_df.cols.drop 4⟩ :=
  c7_add_wcs_zero_and_one c7_df c7_wcs "r1"
    [CellVal.num (mkRat 3 1)] [CellVal.num (mkRat 4 1)]
    (by decide) (by decide) (by decide) (by decide) (by decide)

/-! ## The Catalog Writer's `data` section (claim C6) -/

/-- C6 counterexample: the second section (key `data`) of a writer run
contains the individual per-image columns `img1.chip1_counts` and
`img1.chip1_mag`: the column filter of line 386 drops only names
containing the literal substring `"\ ("`, which no generated name
contains. -/
theorem c6_data_per_image_counterexample :
    read_fakestars ⟨[]⟩ "t.phot.fake" c6_df ⟨0, []⟩ ["WFC3_F814W"] [] c7_wcs =
      .ok (c6_expected_res, c6_expected_cfg) ∧
    c6_expected_res.sections[1]? = some ("data", c6_data_df) ∧
    hasCol c6_data_df "img1.chip1_counts" = true ∧
    hasCol c6_data_df "img1.chip1_mag" = true := by
  refine ⟨by decide, by decide, by decide, by decide⟩

theorem alistHas_filter_of_pred {α : Type} (l : List (String × α)) (q : String → Bool)
    (k : String) (h : alistHas l k = true) (hq : q k = true) :
    alistHas (l.filter (fun p => q p.1)) k = true := by
  obtain ⟨p, hp, hpe⟩ := List.any_eq_true.mp h
  apply List.any_eq_true.mpr
  refine ⟨p, List.mem_filter.mpr ⟨hp, ?_⟩, hpe⟩
  have hpk : p.1 = k := by simpa using hpe
  rw [hpk]
  exact hq

theorem hasCol_stepP (sv : ParamVal) (st8 : Df × Config) (f m : String)
    (h : hasCol st8.1 m = true) : hasCol (stepP sv st8 f).1 m = true := by
  unfold stepP
  rcases hs : splitUnderscore (lowerStr f) with _ | ⟨d0, _ | ⟨fp, _ | ⟨x2, r2⟩⟩⟩ <;>
    try exact h
  simp only
  split
  · exact hasCol_setCol_mono _ _ _ _ (hasCol_setCol_mono _ _ _ _ h)
  · exact hasCol_setCol_mono _ _ _ _ (hasCol_setCol_mono _ _ _ _ h)

theorem hasCol_foldl_stepP (sv : ParamVal) (fs : List String) :
    ∀ (st8 : Df × Config) (m : String), hasCol st8.1 m = true →
      hasCol (List.foldl (stepP sv) st8 fs).1 m = true := by
  induction fs with
  | nil => intro st8 m h; exact h
  | cons f rest ih =>
    intro st8 m h
    rw [List.foldl_cons]
    exact ih (stepP sv st8 f) m (hasCol_stepP sv st8 f m h)

theorem hasCol_cull {df : Df} {fs : List String} {cfg : Config} {d : Df} {c : Config}
    {m : String} (h : cull_fakestars df fs cfg = .ok (d, c))
    (hm : hasCol df m = true) : hasCol d m = true := by
  obtain ⟨hsp, hout⟩ := cull_ok_inv df fs cfg (d, c) h
  have hd : d = (cullP df fs cfg).1 := congrArg Prod.fst hout
  rw [hd, cullP]
  exact hasCol_foldl_stepP _ fs (df, cfg) m hm

theorem hasCol_insertCol {df : Df} {loc : Nat} {name : String} {col : List CellVal}
    {df2 : Df} {m : String} (h : insertCol df loc name col = .ok df2)
    (hm : hasCol df m = true) : hasCol df2 m = true := by
  unfold insertCol at h
  split at h
  · exact Except.noConfusion h
  · split at h
    · obtain rfl := (Except.ok.inj h).symm
      show alistHas (df.cols.take loc ++ [(name, col)] ++ df.cols.drop loc) m = true
      rw [List.append_assoc, alistHas, List.any_append]
      have hm2 : (df.cols.take loc).any (fun p => p.1 == m) = true ∨
          (df.cols.drop loc).any (fun p => p.1 == m) = true := by
        have h3 : alistHas (df.cols.take loc ++ df.cols.drop loc) m = true := by
          rw [List.take_append_drop]
          exact hm
        rw [alistHas, List.any_append, Bool.or_eq_true] at h3
        exact h3
      rcases hm2 with hm2 | hm2
      · rw [hm2]
        rfl
      · rw [List.any_append, hm2]
        simp
    · exact Except.noConfusion h

theorem hasCol_add_wcs {df : Df} {refs : List String} {w : ℚ → ℚ → ℚ × ℚ} {df2 : Df}
    {m : String} (h : add_wcs df refs w = .ok df2) (hm : hasCol df m = true) :
    hasCol df2 m = true := by
  rcases refs with _ | ⟨r, _ | ⟨r2, rs⟩⟩
  · obtain rfl := Except.ok.inj h
    exact hm
  · rcases hx : lookupCol df "x" with _ | xs
    · rcases hy : lookupCol df "y" with _ | ys
      · unfold add_wcs at h
        simp only [hx, hy] at h
        exact Except.noConfusion h
      · unfold add_wcs at h
        simp only [hx, hy] at h
        exact Except.noConfusion h
    · rcases hy : lookupCol df "y" with _ | ys
      · unfold add_wcs at h
        simp only [hx, hy] at h
        exact Except.noConfusion h
      · rw [add_wcs_single_spec df r w xs ys hx hy] at h
        split at h
        · exact Except.noConfusion h
        · rename_i dfmid hmid
          exact hasCol_insertCol h (hasCol_insertCol hmid hm)
  · obtain rfl := Except.ok.inj h
    exact hm

/-- C6 amended: the `data` section of a successful writer run holds the
catalog restricted by the (vacuous) `"\ ("` name filter of line 386 with
the flag and coordinate columns added: every input column whose name
does not contain `"\ ("` survives into the `data` section — including
the individual per-image columns, which are therefore not excluded. -/
theorem c6_data_section_amended (cfg : Config) (photfile : String) (df headerDf : Df)
    (filters refImages : List String) (wcsF : ℚ → ℚ → ℚ × ℚ) (res : RFResult)
    (cfg2 : Config) (name : String)
    (h : read_fakestars cfg photfile df headerDf filters refImages wcsF = .ok (res, cfg2))
    (hname : hasCol df name = true)
    (hnosub : containsSub name "\\ (" = false) :
    ∃ d : Df, res.sections[1]? = some ("data", d) ∧ hasCol d name = true := by
  unfold read_fakestars at h
  simp only at h
  split at h
  · exact Except.noConfusion h
  · rename_i exc1 df1 cfg1 hcull
    split at h
    · exact Except.noConfusion h
    · rename_i df2 hwcs
      have h0 : hasCol (⟨df.nrows,
          df.cols.filter (fun p => !(containsSub p.1 "\\ ("))⟩ : Df) name = true := by
        show alistHas _ name = true
        exact alistHas_filter_of_pred df.cols (fun s => !(containsSub s "\\ (")) name
          hname (by simp [hnosub])
      have h1 : hasCol df1 name = true := hasCol_cull hcull h0
      have h2 : hasCol df2 name = true := hasCol_add_wcs hwcs h1
      obtain h3 := Except.ok.inj h
      refine ⟨df2, ?_, h2⟩
      have h5 := (congrArg (fun p : RFResult × Config => p.1.sections[1]?) h3).symm
      refine h5.trans ?_
      simp

/-- Witness for C6 (amended): the per-image column `img1.chip1_counts`
of `c6_df` appears in the `data` section of the concrete run. -/
theorem c6_data_section_amended_witness :
    ∃ d : Df, c6_expected_res.sections[1]? = some ("data", d) ∧
      hasCol d "img1.chip1_counts" = true :=
  c6_data_section_amended ⟨[]⟩ "t.phot.fake" c6_df ⟨0, []⟩ ["WFC3_F814W"] [] c7_wcs
    c6_expected_res c6_expected_cfg "img1.chip1_counts"
    (by decide) (by decide) (by decide)

/-! ## The writer's Python return value (claim C10) -/

/-- C10: `read_fakestars` has no `return` statement: for every input on
which it completes, its Python return value is `None` (despite the
docstring promising a DataFrame), so any caller binding its result
receives `None`. -/
theorem c10_read_fakestars_returns_none (cfg : Config) (photfile : String)
    (df headerDf : Df) (filters refImages : List String) (wcsF : ℚ → ℚ → ℚ × ℚ)
    (res : RFResult) (cfg2 : Config)
    (h : read_fakestars cfg photfile df headerDf filters refImages wcsF = .ok (res, cfg2)) :
    res.retval = none := by
  unfold read_fakestars at h
  simp only at h
  split at h
  · exact Except.noConfusion h
  · split at h
    · exact Except.noConfusion h
    · have h2 := Except.ok.inj h
      exact (congrArg (fun p : RFResult × Config => p.1.retval) h2).symm

/-- Witness for C10 on the concrete `c6_df` run. -/
theorem c10_read_fakestars_returns_none_witness : c6_expected_res.retval = none :=
  c10_read_fakestars_returns_none ⟨[]⟩ "t.phot.fake" c6_df ⟨0, []⟩ ["WFC3_F814W"] []
    c7_wcs c6_expected_res c6_expected_cfg (by decide)

end PhatFake
